import Mathlib

/-!
# Internal Wallet Service — shallow embedding and verification

A shallow embedding of the wallet service found in `app/services/wallet_service.py`
and the HTTP adapter `app/api/v1/wallets.py`, together with proofs about the
spec's claims.

Modelling conventions:
* Monetary amounts are scale-2 fixed-point decimals in the source
  (`Numeric(20,2)`, exact arithmetic); we model them as `Int` (the number of
  hundredths), which is faithful for addition, subtraction and comparison.
* Timestamps are modelled as `Nat` hours (the only arithmetic the code does on
  them is `+ timedelta(hours=24)` and a comparison).
* The database session is modelled as an explicit `Store` value threaded through
  each call; `flush` is modelled by updating the store; commit/rollback is
  modelled at the endpoint level (keep the new store / discard it).
* Fallible operations return `Except WalletError`.
-/

namespace WalletSvc

/-- `TransactionType` enum from `app/models/transaction.py`. -/
inductive TransactionType where
  | TOPUP | BONUS | SPEND | REFUND | ADJUSTMENT
deriving DecidableEq, Repr

/-- `TransactionStatus` enum from `app/models/transaction.py`. -/
inductive TransactionStatus where
  | PENDING | COMPLETED | FAILED | ROLLED_BACK
deriving DecidableEq, Repr

/-- `EntryType` enum from `app/models/ledger_entry.py`. -/
inductive EntryType where
  | DEBIT | CREDIT
deriving DecidableEq, Repr

/-- `AssetType` row from `app/models/asset_type.py` (fields the service reads). -/
structure AssetType where
  id : Nat
  code : String
  is_active : Bool
deriving DecidableEq, Repr

/-- `Wallet` row from `app/models/wallet.py`. -/
structure Wallet where
  id : Nat
  user_id : String
  asset_type_id : Nat
  balance : Int
  is_system : Bool
  version : Nat
deriving DecidableEq, Repr

/-- `Transaction` row from `app/models/transaction.py` (fields the service writes). -/
structure Transaction where
  id : Nat
  idempotency_key : String
  transaction_type : TransactionType
  status : TransactionStatus
  from_wallet_id : Nat
  to_wallet_id : Nat
  asset_type_id : Nat
  amount : Int
  description : Option String
deriving DecidableEq, Repr

/-- `LedgerEntry` row from `app/models/ledger_entry.py`. -/
structure LedgerEntry where
  transaction_id : Nat
  wallet_id : Nat
  entry_type : EntryType
  amount : Int
  balance_after : Int
deriving DecidableEq, Repr

/-- The serialized `TransactionResponse` from `app/schemas/wallet.py` (the JSON
body cached by the idempotency layer). -/
structure TransactionResponse where
  transaction_id : Nat
  transaction_type : TransactionType
  status : TransactionStatus
  from_wallet_id : Nat
  to_wallet_id : Nat
  amount : Int
  description : Option String
deriving DecidableEq, Repr

/-- `IdempotencyLog` row from `app/models/idempotency_log.py`; `response_body`
holds the serialized response. -/
structure IdempotencyLog where
  idempotency_key : String
  request_path : String
  request_method : String
  response_status : Nat
  response_body : TransactionResponse
  expires_at : Nat
deriving DecidableEq, Repr

/-- The database state visible to the service: the five tables plus the
autoincrement counters for wallet ids and transaction ids. -/
structure Store where
  assets : List AssetType
  wallets : List Wallet
  transactions : List Transaction
  entries : List LedgerEntry
  idem : List IdempotencyLog
  nextWalletId : Nat
  nextTxId : Nat
deriving DecidableEq, Repr

/-- The service's error values from `app/services/wallet_service.py`:
`InsufficientFundsError` carries the available and required amounts (the code
formats them into the message string). -/
inductive WalletError where
  | insufficientFunds (available : Int) (required : Int)
  | assetTypeNotFound (code : String)
  | walletNotFound
deriving DecidableEq, Repr

/-- `SELECT ... WHERE Wallet.id == wid` (the per-id lookup `_execute_transaction`
does on its locked rows). -/
def findWalletById (ws : List Wallet) (wid : Nat) : Option Wallet :=
  ws.find? (fun w => w.id = wid)

/-- The balance a row-read of wallet `wid` observes (0 when absent; only called
on present wallets). -/
def balanceOf (ws : List Wallet) (wid : Nat) : Int :=
  match findWalletById ws wid with
  | some w => w.balance
  | none => 0

/-- `wallet.balance += delta` on the row with id `wid` (SQLAlchemy mutates the
identity-mapped row in place; we rewrite the row in the table). -/
def updateBalance (ws : List Wallet) (wid : Nat) (delta : Int) : List Wallet :=
  ws.map (fun w => if w.id = wid then { w with balance := w.balance + delta } else w)

/-- `WalletService._get_asset_type_by_code`: select by code with
`is_active == True`; raise `AssetTypeNotFoundError` when absent. -/
def get_asset_type_by_code (s : Store) (code : String) : Except WalletError AssetType :=
  match s.assets.find? (fun a => a.code = code && a.is_active) with
  | some a => .ok a
  | none => .error (.assetTypeNotFound code)

/-- `WalletService._get_or_create_wallet`: select by `(user_id, asset_type_id)`
(FOR UPDATE); when absent, create a wallet with zero balance, the supplied
`is_system` flag and `version = 0`, and flush it. -/
def get_or_create_wallet (s : Store) (user_id : String) (asset_type_id : Nat)
    (is_system : Bool) : Wallet × Store :=
  match s.wallets.find? (fun w => w.user_id = user_id && w.asset_type_id = asset_type_id) with
  | some w => (w, s)
  | none =>
    let w : Wallet :=
      { id := s.nextWalletId, user_id := user_id, asset_type_id := asset_type_id,
        balance := 0, is_system := is_system, version := 0 }
    (w, { s with wallets := s.wallets ++ [w], nextWalletId := s.nextWalletId + 1 })

/-- `WalletService._execute_transaction`: lock both wallets, fail
`WalletNotFoundError` when either is missing, fail `InsufficientFundsError`
when the from-wallet is non-system with `balance < amount`; otherwise insert a
PENDING transaction header, mutate both balances, insert the DEBIT and CREDIT
ledger entries (whose `balance_after` reads the wallet objects after both
mutations), and mark the header COMPLETED. -/
def execute_transaction (s : Store) (from_wallet_id to_wallet_id asset_type_id : Nat)
    (amount : Int) (transaction_type : TransactionType) (idempotency_key : String)
    (description : Option String) : Except WalletError (Transaction × Store) :=
  match findWalletById s.wallets from_wallet_id, findWalletById s.wallets to_wallet_id with
  | some from_wallet, some _to_wallet =>
    if ¬from_wallet.is_system ∧ from_wallet.balance < amount then
      .error (.insufficientFunds from_wallet.balance amount)
    else
      let pending : Transaction :=
        { id := s.nextTxId, idempotency_key := idempotency_key,
          transaction_type := transaction_type, status := .PENDING,
          from_wallet_id := from_wallet_id, to_wallet_id := to_wallet_id,
          asset_type_id := asset_type_id, amount := amount, description := description }
      let ws1 := updateBalance s.wallets from_wallet_id (-amount)
      let ws2 := updateBalance ws1 to_wallet_id amount
      let debit_entry : LedgerEntry :=
        { transaction_id := pending.id, wallet_id := from_wallet_id,
          entry_type := .DEBIT, amount := -amount,
          balance_after := balanceOf ws2 from_wallet_id }
      let credit_entry : LedgerEntry :=
        { transaction_id := pending.id, wallet_id := to_wallet_id,
          entry_type := .CREDIT, amount := amount,
          balance_after := balanceOf ws2 to_wallet_id }
      let tx := { pending with status := TransactionStatus.COMPLETED }
      .ok (tx,
        { s with wallets := ws2,
                 transactions := s.transactions ++ [tx],
                 entries := s.entries ++ [debit_entry, credit_entry],
                 nextTxId := s.nextTxId + 1 })
  | _, _ => .error .walletNotFound

/-- `WalletService.topup_wallet`: resolve the asset, get-or-create the user
wallet (`is_system=False`) and the `SYSTEM_TREASURY_<code>` wallet
(`is_system=True`), then transfer treasury → user with kind TOPUP. -/
def topup_wallet (s : Store) (user_id asset_type_code : String) (amount : Int)
    (idempotency_key : String) (description : Option String) :
    Except WalletError (Transaction × Store) := do
  let asset_type ← get_asset_type_by_code s asset_type_code
  let (user_wallet, s1) := get_or_create_wallet s user_id asset_type.id false
  let (treasury_wallet, s2) :=
    get_or_create_wallet s1 ("SYSTEM_TREASURY_" ++ asset_type_code) asset_type.id true
  execute_transaction s2 treasury_wallet.id user_wallet.id asset_type.id amount
    .TOPUP idempotency_key
    (some (description.getD ("Wallet top-up for " ++ user_id)))

/-- `WalletService.issue_bonus`: resolve the asset, get-or-create the user
wallet and the `SYSTEM_BONUS_POOL_<code>` wallet, then transfer
bonus-pool → user with kind BONUS. -/
def issue_bonus (s : Store) (user_id asset_type_code : String) (amount : Int)
    (idempotency_key : String) (reason : String) :
    Except WalletError (Transaction × Store) := do
  let asset_type ← get_asset_type_by_code s asset_type_code
  let (user_wallet, s1) := get_or_create_wallet s user_id asset_type.id false
  let (bonus_wallet, s2) :=
    get_or_create_wallet s1 ("SYSTEM_BONUS_POOL_" ++ asset_type_code) asset_type.id true
  execute_transaction s2 bonus_wallet.id user_wallet.id asset_type.id amount
    .BONUS idempotency_key (some ("Bonus: " ++ reason))

/-- `WalletService.spend_credits`: resolve the asset, look up (not create) the
user wallet and fail `WalletNotFoundError` when absent, get-or-create the
`SYSTEM_REVENUE_<code>` wallet, then transfer user → revenue with kind SPEND. -/
def spend_credits (s : Store) (user_id asset_type_code : String) (amount : Int)
    (idempotency_key : String) (description : Option String) :
    Except WalletError (Transaction × Store) := do
  let asset_type ← get_asset_type_by_code s asset_type_code
  match s.wallets.find? (fun w => w.user_id = user_id && w.asset_type_id = asset_type.id) with
  | none => .error .walletNotFound
  | some user_wallet =>
    let (revenue_wallet, s1) :=
      get_or_create_wallet s ("SYSTEM_REVENUE_" ++ asset_type_code) asset_type.id true
    execute_transaction s1 user_wallet.id revenue_wallet.id asset_type.id amount
      .SPEND idempotency_key
      (some (description.getD ("Purchase by " ++ user_id)))

/-- `WalletService.get_wallet_balance`: resolve the asset, look up the user
wallet; when absent, create it with zero balance (via `_get_or_create_wallet`
with the default `is_system=False`) and commit; return `(wallet, asset)`. -/
def get_wallet_balance (s : Store) (user_id asset_type_code : String) :
    Except WalletError ((Wallet × AssetType) × Store) := do
  let asset_type ← get_asset_type_by_code s asset_type_code
  match s.wallets.find? (fun w => w.user_id = user_id && w.asset_type_id = asset_type.id) with
  | some wallet => .ok ((wallet, asset_type), s)
  | none =>
    let (wallet, s1) := get_or_create_wallet s user_id asset_type.id false
    .ok ((wallet, asset_type), s1)

/-- `WalletService._check_idempotency`: select the idempotency row with this key
and `expires_at > now`; return its cached `(status, body)` when found. -/
def check_idempotency (s : Store) (now : Nat) (idempotency_key : String) :
    Option (Nat × TransactionResponse) :=
  match s.idem.find? (fun l => l.idempotency_key = idempotency_key && now < l.expires_at) with
  | some l => some (l.response_status, l.response_body)
  | none => none

/-- `WalletService._save_idempotency_log`: insert a row with
`expires_at = now + 24h` and flush. The flush hits the unique index on
`idempotency_key` (`app/models/idempotency_log.py`): when any row with this key
already exists — expired or not — the database raises `IntegrityError`,
modelled as `.error ()`. -/
def save_idempotency_log (s : Store) (now : Nat) (idempotency_key : String)
    (request_path request_method : String) (response_status : Nat)
    (response_body : TransactionResponse) : Except Unit Store :=
  if s.idem.any (fun l => l.idempotency_key = idempotency_key) then
    .error ()
  else
    .ok { s with idem := s.idem ++
      [{ idempotency_key := idempotency_key, request_path := request_path,
         request_method := request_method, response_status := response_status,
         response_body := response_body, expires_at := now + 24 }] }

/-- Modelled from the spec: `app/database.py` (the `get_db` session dependency used
by `app/api/v1/wallets.py`) is not under `src/`; spec §5 requires that within one
request "all store operations occur in a single transaction scope that is committed
at request end or rolled back on any error". Accordingly a request that raises
before reaching `db.commit()` leaves the committed store unchanged. -/
def sessionRollback (committed : Store) : Store := committed

/-- The endpoint's HTTP outcome: a 2xx response with a serialized body, a
structured client error (`HTTPException` with 4xx status), or the generic
500 "Transaction Failed" produced by the `except Exception` handler. -/
inductive Response where
  | success (status : Nat) (body : TransactionResponse)
  | clientError (status : Nat) (e : WalletError)
  | serverError
deriving DecidableEq, Repr

/-- The `TransactionResponse(...)` constructed by each endpoint in
`app/api/v1/wallets.py` from the completed transaction. -/
def mkTransactionResponse (tx : Transaction) : TransactionResponse :=
  { transaction_id := tx.id, transaction_type := tx.transaction_type,
    status := tx.status, from_wallet_id := tx.from_wallet_id,
    to_wallet_id := tx.to_wallet_id, amount := tx.amount,
    description := tx.description }

/-- The `except` clauses of the `/topup` route: `AssetTypeNotFoundError → 404`,
`InsufficientFundsError → 400`; anything else falls to the generic
`except Exception` handler (rollback + 500). -/
def topup_error_response : WalletError → Response
  | .assetTypeNotFound c => .clientError 404 (.assetTypeNotFound c)
  | .insufficientFunds av rq => .clientError 400 (.insufficientFunds av rq)
  | .walletNotFound => .serverError

/-- The `except` clauses of the `/bonus` route: only `AssetTypeNotFoundError → 404`
is handled; anything else falls to the generic handler. -/
def bonus_error_response : WalletError → Response
  | .assetTypeNotFound c => .clientError 404 (.assetTypeNotFound c)
  | .insufficientFunds _ _ => .serverError
  | .walletNotFound => .serverError

/-- The `except` clauses of the `/spend` route: `AssetTypeNotFoundError → 404`,
`WalletNotFoundError → 404`, `InsufficientFundsError → 400`. -/
def spend_error_response : WalletError → Response
  | .assetTypeNotFound c => .clientError 404 (.assetTypeNotFound c)
  | .walletNotFound => .clientError 404 .walletNotFound
  | .insufficientFunds av rq => .clientError 400 (.insufficientFunds av rq)

/-- `topup_wallet` route in `app/api/v1/wallets.py`: idempotency check (replay the
cached body with the route's 201 status), business call, build the response,
save the idempotency log, commit. A flush failure in `_save_idempotency_log`
is caught by the generic `except Exception` handler: rollback and 500. -/
def topup_endpoint (s : Store) (now : Nat) (idempotency_key : String)
    (user_id asset_type_code : String) (amount : Int) (description : Option String) :
    Response × Store :=
  match check_idempotency s now idempotency_key with
  | some cached => (.success 201 cached.2, s)
  | none =>
    match topup_wallet s user_id asset_type_code amount idempotency_key description with
    | .error e => (topup_error_response e, sessionRollback s)
    | .ok (tx, s1) =>
      let response := mkTransactionResponse tx
      match save_idempotency_log s1 now idempotency_key "/api/v1/wallets/topup" "POST"
          201 response with
      | .error _ => (.serverError, sessionRollback s)
      | .ok s2 => (.success 201 response, s2)

/-- `issue_bonus` route in `app/api/v1/wallets.py` (same shape as `/topup`). -/
def bonus_endpoint (s : Store) (now : Nat) (idempotency_key : String)
    (user_id asset_type_code : String) (amount : Int) (reason : String) :
    Response × Store :=
  match check_idempotency s now idempotency_key with
  | some cached => (.success 201 cached.2, s)
  | none =>
    match issue_bonus s user_id asset_type_code amount idempotency_key reason with
    | .error e => (bonus_error_response e, sessionRollback s)
    | .ok (tx, s1) =>
      let response := mkTransactionResponse tx
      match save_idempotency_log s1 now idempotency_key "/api/v1/wallets/bonus" "POST"
          201 response with
      | .error _ => (.serverError, sessionRollback s)
      | .ok s2 => (.success 201 response, s2)

/-- `spend_credits` route in `app/api/v1/wallets.py` (same shape as `/topup`,
with the spend error table). -/
def spend_endpoint (s : Store) (now : Nat) (idempotency_key : String)
    (user_id asset_type_code : String) (amount : Int) (description : Option String) :
    Response × Store :=
  match check_idempotency s now idempotency_key with
  | some cached => (.success 201 cached.2, s)
  | none =>
    match spend_credits s user_id asset_type_code amount idempotency_key description with
    | .error e => (spend_error_response e, sessionRollback s)
    | .ok (tx, s1) =>
      let response := mkTransactionResponse tx
      match save_idempotency_log s1 now idempotency_key "/api/v1/wallets/spend" "POST"
          201 response with
      | .error _ => (.serverError, sessionRollback s)
      | .ok s2 => (.success 201 response, s2)

/-- A mutating HTTP request (body of one of the three POST routes). -/
inductive Request where
  | topup (user_id asset_type_code : String) (amount : Int) (description : Option String)
  | bonus (user_id asset_type_code : String) (amount : Int) (reason : String)
  | spend (user_id asset_type_code : String) (amount : Int) (description : Option String)
deriving DecidableEq, Repr

/-- Dispatch a mutating request to its route. -/
def handle (s : Store) (now : Nat) (idempotency_key : String) : Request → Response × Store
  | .topup u c a d => topup_endpoint s now idempotency_key u c a d
  | .bonus u c a r => bonus_endpoint s now idempotency_key u c a r
  | .spend u c a d => spend_endpoint s now idempotency_key u c a d

/-- A service-level mutating operation (the arguments of `topup_wallet`,
`issue_bonus`, `spend_credits`). -/
inductive Op where
  | topup (user_id asset_type_code : String) (amount : Int) (idempotency_key : String)
      (description : Option String)
  | bonus (user_id asset_type_code : String) (amount : Int) (idempotency_key : String)
      (reason : String)
  | spend (user_id asset_type_code : String) (amount : Int) (idempotency_key : String)
      (description : Option String)
deriving DecidableEq, Repr

/-- The amount carried by an operation (validated `gt=0` by the pydantic
schemas in `app/schemas/wallet.py` before the service is entered). -/
def Op.amount : Op → Int
  | .topup _ _ a _ _ => a
  | .bonus _ _ a _ _ => a
  | .spend _ _ a _ _ => a

/-- Run one service operation. -/
def runOp (s : Store) : Op → Except WalletError (Transaction × Store)
  | .topup u c a k d => topup_wallet s u c a k d
  | .bonus u c a k r => issue_bonus s u c a k r
  | .spend u c a k d => spend_credits s u c a k d

/-- The store after one operation: the new store on success, the unchanged
committed store when the operation raises (per-request rollback). -/
def applyOp (s : Store) (o : Op) : Store :=
  match runOp s o with
  | .ok (_, s1) => s1
  | .error _ => sessionRollback s

/-- The store after a sequence of operations. -/
def applyOps (s : Store) : List Op → Store
  | [] => s
  | o :: os => applyOps (applyOp s o) os

/-- The sum of `amount` over all ledger entries of wallet `wid`
(the `Balance = SUM of all ledger entries` discipline stated in
`app/models/ledger_entry.py`). -/
def ledgerSum (es : List LedgerEntry) (wid : Nat) : Int :=
  ((es.filter (fun e => e.wallet_id = wid)).map LedgerEntry.amount).sum

/-- Database well-formedness guaranteed by the schema
(`alembic/versions/001_initial_schema.py`): wallet ids are unique (primary
key), below the autoincrement counter, and every ledger entry's `wallet_id`
is a foreign key into `wallets`. -/
def WF (s : Store) : Prop :=
  s.wallets.Pairwise (fun a b => a.id ≠ b.id) ∧
  (∀ w ∈ s.wallets, w.id < s.nextWalletId) ∧
  (∀ e ∈ s.entries, ∃ w ∈ s.wallets, e.wallet_id = w.id)

/-- Every wallet's stored balance equals the sum of its ledger entries. -/
def BalancesMatchLedger (s : Store) : Prop :=
  ∀ w ∈ s.wallets, w.balance = ledgerSum s.entries w.id

/-- Every non-system wallet has a non-negative balance. -/
def NonSystemNonNeg (s : Store) : Prop :=
  ∀ w ∈ s.wallets, w.is_system = false → 0 ≤ w.balance

/-! ## Characterization of `_execute_transaction`'s successful commit -/

/-- The per-row effect of the two balance mutations of `_execute_transaction`
(`from_wallet.balance -= amount` then `to_wallet.balance += amount`). -/
def updFun (fid tid : Nat) (a : Int) (w : Wallet) : Wallet :=
  { w with balance := w.balance + (if w.id = fid then -a else 0) +
                        (if w.id = tid then a else 0) }

/-- The completed transaction header written by a successful
`_execute_transaction`. -/
def txOf (s : Store) (fid tid aid : Nat) (a : Int) (tt : TransactionType)
    (k : String) (d : Option String) : Transaction :=
  { id := s.nextTxId, idempotency_key := k, transaction_type := tt,
    status := .COMPLETED, from_wallet_id := fid, to_wallet_id := tid,
    asset_type_id := aid, amount := a, description := d }

/-- The wallet table after the two balance mutations. -/
def walletsAfter (s : Store) (fid tid : Nat) (a : Int) : List Wallet :=
  updateBalance (updateBalance s.wallets fid (-a)) tid a

/-- The store written by a successful `_execute_transaction`. -/
def storeAfter (s : Store) (fid tid aid : Nat) (a : Int) (tt : TransactionType)
    (k : String) (d : Option String) : Store :=
  { s with wallets := walletsAfter s fid tid a,
           transactions := s.transactions ++ [txOf s fid tid aid a tt k d],
           entries := s.entries ++
             [{ transaction_id := s.nextTxId, wallet_id := fid, entry_type := .DEBIT,
                amount := -a, balance_after := balanceOf (walletsAfter s fid tid a) fid },
              { transaction_id := s.nextTxId, wallet_id := tid, entry_type := .CREDIT,
                amount := a, balance_after := balanceOf (walletsAfter s fid tid a) tid }],
           nextTxId := s.nextTxId + 1 }

theorem updFun_id (fid tid : Nat) (a : Int) (w : Wallet) : (updFun fid tid a w).id = w.id :=
  rfl

theorem updFun_user_id (fid tid : Nat) (a : Int) (w : Wallet) :
    (updFun fid tid a w).user_id = w.user_id :=
  rfl

theorem updFun_asset_type_id (fid tid : Nat) (a : Int) (w : Wallet) :
    (updFun fid tid a w).asset_type_id = w.asset_type_id :=
  rfl

theorem updFun_is_system (fid tid : Nat) (a : Int) (w : Wallet) :
    (updFun fid tid a w).is_system = w.is_system :=
  rfl

theorem updFun_version (fid tid : Nat) (a : Int) (w : Wallet) :
    (updFun fid tid a w).version = w.version :=
  rfl

theorem updFun_balance (fid tid : Nat) (a : Int) (w : Wallet) :
    (updFun fid tid a w).balance =
      w.balance + (if w.id = fid then -a else 0) + (if w.id = tid then a else 0) :=
  rfl

theorem walletsAfter_eq_map (s : Store) (fid tid : Nat) (a : Int) :
    walletsAfter s fid tid a = s.wallets.map (updFun fid tid a) := by
  unfold walletsAfter updateBalance
  rw [List.map_map]
  apply List.map_congr_left
  intro w _
  simp only [Function.comp, updFun]
  by_cases h1 : w.id = fid
  · by_cases h2 : w.id = tid
    · rw [if_pos h1]
      rw [if_pos (show ({ w with balance := w.balance + -a } : Wallet).id = tid from h2)]
      simp [if_pos h1, if_pos h2]
    · rw [if_pos h1]
      rw [if_neg (show ¬({ w with balance := w.balance + -a } : Wallet).id = tid from h2)]
      simp [if_pos h1, if_neg h2]
  · by_cases h2 : w.id = tid
    · rw [if_neg h1, if_pos h2]
      simp [if_neg h1, if_pos h2]
    · rw [if_neg h1, if_neg h2]
      simp [if_neg h1, if_neg h2]

theorem findWalletById_map_id_preserving (ws : List Wallet) (f : Wallet → Wallet)
    (hf : ∀ w, (f w).id = w.id) (wid : Nat) :
    findWalletById (ws.map f) wid = (findWalletById ws wid).map f := by
  unfold findWalletById
  rw [List.find?_map]
  have hpe : ((fun w : Wallet => decide (w.id = wid)) ∘ f) =
      (fun w : Wallet => decide (w.id = wid)) := by
    funext w
    simp [Function.comp, hf]
  rw [hpe]

theorem findWalletById_some {ws : List Wallet} {wid : Nat} {w : Wallet}
    (h : findWalletById ws wid = some w) : w.id = wid ∧ w ∈ ws := by
  refine ⟨?_, List.mem_of_find?_eq_some h⟩
  have := List.find?_some h
  simpa using this

theorem findWalletById_eq_none {ws : List Wallet} {wid : Nat}
    (h : ∀ w ∈ ws, w.id ≠ wid) : findWalletById ws wid = none := by
  unfold findWalletById
  exact List.find?_eq_none.mpr (by simpa using h)

theorem mem_id_unique {ws : List Wallet} (hp : ws.Pairwise (fun a b => a.id ≠ b.id))
    {v w : Wallet} (hv : v ∈ ws) (hw : w ∈ ws) (h : v.id = w.id) : v = w := by
  induction ws with
  | nil => cases hv
  | cons x xs ih =>
    rcases List.pairwise_cons.mp hp with ⟨hx, hxs⟩
    cases hv with
    | head =>
      cases hw with
      | head => rfl
      | tail _ hw' => exact absurd h (hx _ hw')
    | tail _ hv' =>
      cases hw with
      | head => exact absurd h.symm (hx _ hv')
      | tail _ hw' => exact ih hxs hv' hw'

theorem findWalletById_of_mem {ws : List Wallet}
    (hp : ws.Pairwise (fun a b => a.id ≠ b.id)) {w : Wallet} (hw : w ∈ ws) :
    findWalletById ws w.id = some w := by
  cases hfind : findWalletById ws w.id with
  | none =>
    unfold findWalletById at hfind
    have := List.find?_eq_none.mp hfind w hw
    simp at this
  | some v =>
    obtain ⟨hid, hmem⟩ := findWalletById_some hfind
    rw [mem_id_unique hp hmem hw hid]

theorem balanceOf_walletsAfter {s : Store} {wid : Nat} {w : Wallet}
    (h : findWalletById s.wallets wid = some w) (fid tid : Nat) (a : Int) :
    balanceOf (walletsAfter s fid tid a) wid =
      w.balance + (if wid = fid then -a else 0) + (if wid = tid then a else 0) := by
  have hw : w.id = wid := (findWalletById_some h).1
  unfold balanceOf
  rw [walletsAfter_eq_map, findWalletById_map_id_preserving _ _ (updFun_id fid tid a), h]
  simp only [Option.map_some']
  rw [updFun_balance, hw]

theorem ledgerSum_append (es es' : List LedgerEntry) (wid : Nat) :
    ledgerSum (es ++ es') wid = ledgerSum es wid + ledgerSum es' wid := by
  simp [ledgerSum, List.filter_append]

theorem ledgerSum_pair (d c : LedgerEntry) (wid : Nat) :
    ledgerSum [d, c] wid = (if d.wallet_id = wid then d.amount else 0) +
      (if c.wallet_id = wid then c.amount else 0) := by
  by_cases h1 : d.wallet_id = wid <;> by_cases h2 : c.wallet_id = wid <;>
    simp [ledgerSum, h1, h2]

theorem ledgerSum_eq_zero {es : List LedgerEntry} {wid : Nat}
    (h : ∀ e ∈ es, e.wallet_id ≠ wid) : ledgerSum es wid = 0 := by
  unfold ledgerSum
  rw [List.filter_eq_nil_iff.mpr (by simpa using h)]
  rfl

/-- Successful run of `_execute_transaction`, given that both wallets are found
and the balance check passes. -/
theorem execute_transaction_eq_ok {s : Store} {fid tid : Nat} {fw tw : Wallet}
    (aid : Nat) (a : Int) (tt : TransactionType) (k : String) (d : Option String)
    (hf : findWalletById s.wallets fid = some fw)
    (ht : findWalletById s.wallets tid = some tw)
    (hok : ¬(fw.is_system = false ∧ fw.balance < a)) :
    execute_transaction s fid tid aid a tt k d =
      .ok (txOf s fid tid aid a tt k d, storeAfter s fid tid aid a tt k d) := by
  have hcond : ¬(¬fw.is_system = true ∧ fw.balance < a) := by
    simpa [Bool.not_eq_true] using hok
  simp only [execute_transaction, hf, ht, if_neg hcond]
  rfl

/-- Inversion: a successful `_execute_transaction` found both wallets, passed the
balance check, and wrote exactly `txOf`/`storeAfter`. -/
theorem execute_transaction_ok_inv {s : Store} {fid tid aid : Nat} {a : Int}
    {tt : TransactionType} {k : String} {d : Option String} {tx : Transaction} {s' : Store}
    (h : execute_transaction s fid tid aid a tt k d = .ok (tx, s')) :
    ∃ fw tw, findWalletById s.wallets fid = some fw ∧
      findWalletById s.wallets tid = some tw ∧
      ¬(fw.is_system = false ∧ fw.balance < a) ∧
      tx = txOf s fid tid aid a tt k d ∧ s' = storeAfter s fid tid aid a tt k d := by
  cases hf : findWalletById s.wallets fid with
  | none =>
    simp only [execute_transaction, hf] at h
    cases h
  | some fw =>
    cases ht : findWalletById s.wallets tid with
    | none =>
      simp only [execute_transaction, hf, ht] at h
      cases h
    | some tw =>
      by_cases hok : fw.is_system = false ∧ fw.balance < a
      · have hcond : ¬fw.is_system = true ∧ fw.balance < a := by
          simpa [Bool.not_eq_true] using hok
        simp only [execute_transaction, hf, ht, if_pos hcond] at h
        cases h
      · rw [execute_transaction_eq_ok aid a tt k d hf ht hok] at h
        injection h with hp
        exact ⟨fw, tw, rfl, rfl, hok, (congrArg Prod.fst hp).symm, (congrArg Prod.snd hp).symm⟩

/-! ## Invariant preservation -/

/-- The state invariant: schema well-formedness, ledger/balance agreement, and
non-negative user balances. -/
def Inv (s : Store) : Prop :=
  WF s ∧ BalancesMatchLedger s ∧ NonSystemNonNeg s

theorem WF_storeAfter {s : Store} {fid tid : Nat} {fw tw : Wallet}
    (hWF : WF s)
    (hf : findWalletById s.wallets fid = some fw)
    (ht : findWalletById s.wallets tid = some tw)
    (aid : Nat) (a : Int) (tt : TransactionType) (k : String) (d : Option String) :
    WF (storeAfter s fid tid aid a tt k d) := by
  obtain ⟨hpw, hlt, hfk⟩ := hWF
  refine ⟨?_, ?_, ?_⟩
  · show (walletsAfter s fid tid a).Pairwise _
    rw [walletsAfter_eq_map, List.pairwise_map]
    exact hpw.imp (fun h => by simpa [updFun_id] using h)
  · intro w hw
    rw [show (storeAfter s fid tid aid a tt k d).wallets = walletsAfter s fid tid a from rfl,
        walletsAfter_eq_map] at hw
    obtain ⟨v, hv, rfl⟩ := List.mem_map.mp hw
    rw [updFun_id]
    exact hlt v hv
  · intro e he
    rw [show (storeAfter s fid tid aid a tt k d).wallets = walletsAfter s fid tid a from rfl,
        walletsAfter_eq_map]
    rcases List.mem_append.mp he with hold | hnew
    · obtain ⟨w, hw, hid⟩ := hfk e hold
      exact ⟨updFun fid tid a w, List.mem_map_of_mem _ hw, by rw [updFun_id]; exact hid⟩
    · have hfmem := (findWalletById_some hf).2
      have hfid := (findWalletById_some hf).1
      have htmem := (findWalletById_some ht).2
      have htid := (findWalletById_some ht).1
      rcases List.mem_cons.mp hnew with rfl | hc
      · exact ⟨updFun fid tid a fw, List.mem_map_of_mem _ hfmem,
          by rw [updFun_id, hfid]⟩
      · rcases List.mem_cons.mp hc with rfl | hnil
        · exact ⟨updFun fid tid a tw, List.mem_map_of_mem _ htmem,
            by rw [updFun_id, htid]⟩
        · cases hnil

theorem BalancesMatchLedger_storeAfter {s : Store} {fid tid : Nat} {fw tw : Wallet}
    (hB : BalancesMatchLedger s)
    (hf : findWalletById s.wallets fid = some fw)
    (ht : findWalletById s.wallets tid = some tw)
    (aid : Nat) (a : Int) (tt : TransactionType) (k : String) (d : Option String) :
    BalancesMatchLedger (storeAfter s fid tid aid a tt k d) := by
  intro w' hw'
  rw [show (storeAfter s fid tid aid a tt k d).wallets = walletsAfter s fid tid a from rfl,
      walletsAfter_eq_map] at hw'
  obtain ⟨w, hw, rfl⟩ := List.mem_map.mp hw'
  rw [updFun_balance, updFun_id,
      show (storeAfter s fid tid aid a tt k d).entries = s.entries ++
        [{ transaction_id := s.nextTxId, wallet_id := fid, entry_type := .DEBIT,
           amount := -a, balance_after := balanceOf (walletsAfter s fid tid a) fid },
         { transaction_id := s.nextTxId, wallet_id := tid, entry_type := .CREDIT,
           amount := a, balance_after := balanceOf (walletsAfter s fid tid a) tid }] from rfl,
      ledgerSum_append, ledgerSum_pair, ← hB w hw]
  by_cases h1 : w.id = fid
  · by_cases h2 : w.id = tid
    · simp only [if_pos h1, if_pos h2, if_pos h1.symm, if_pos h2.symm]
      ring
    · have h2' : ¬tid = w.id := fun hh => h2 hh.symm
      simp only [if_pos h1, if_neg h2, if_pos h1.symm, if_neg h2']
      ring
  · have h1' : ¬fid = w.id := fun hh => h1 hh.symm
    by_cases h2 : w.id = tid
    · simp only [if_neg h1, if_pos h2, if_neg h1', if_pos h2.symm]
      ring
    · have h2' : ¬tid = w.id := fun hh => h2 hh.symm
      simp only [if_neg h1, if_neg h2, if_neg h1', if_neg h2']
      ring

theorem NonSystemNonNeg_storeAfter {s : Store} {fid tid : Nat} {fw tw : Wallet} {a : Int}
    (hWF : WF s) (hN : NonSystemNonNeg s) (ha : 0 ≤ a)
    (hf : findWalletById s.wallets fid = some fw)
    (ht : findWalletById s.wallets tid = some tw)
    (hok : ¬(fw.is_system = false ∧ fw.balance < a))
    (aid : Nat) (tt : TransactionType) (k : String) (d : Option String) :
    NonSystemNonNeg (storeAfter s fid tid aid a tt k d) := by
  intro w' hw' hsys
  rw [show (storeAfter s fid tid aid a tt k d).wallets = walletsAfter s fid tid a from rfl,
      walletsAfter_eq_map] at hw'
  obtain ⟨w, hw, rfl⟩ := List.mem_map.mp hw'
  rw [updFun_is_system] at hsys
  rw [updFun_balance]
  have hbase := hN w hw hsys
  by_cases h1 : w.id = fid
  · have hfmem := (findWalletById_some hf).2
    have hfid := (findWalletById_some hf).1
    have hwfw : w = fw := mem_id_unique hWF.1 hw hfmem (h1.trans hfid.symm)
    by_cases h2 : w.id = tid
    · simp only [if_pos h1, if_pos h2]
      linarith
    · simp only [if_pos h1, if_neg h2]
      have hnlt : ¬fw.balance < a := fun hlt => hok ⟨hwfw ▸ hsys, hlt⟩
      rw [hwfw]
      push_neg at hnlt
      simp only [add_zero]
      linarith
  · by_cases h2 : w.id = tid
    · simp only [if_neg h1, if_pos h2]
      linarith
    · simp only [if_neg h1, if_neg h2]
      linarith

/-- `_get_or_create_wallet` when the wallet already exists: it is returned as-is
and the store is untouched, whatever `is_system` the caller supplied. -/
theorem get_or_create_wallet_found {s : Store} {u : String} {aid : Nat} {w : Wallet}
    (b : Bool)
    (h : s.wallets.find? (fun w => w.user_id = u && w.asset_type_id = aid) = some w) :
    get_or_create_wallet s u aid b = (w, s) := by
  simp only [get_or_create_wallet, h]

/-- `_get_or_create_wallet` when the wallet is absent: a fresh zero-balance
wallet is appended. -/
theorem get_or_create_wallet_new {s : Store} {u : String} {aid : Nat} (b : Bool)
    (h : s.wallets.find? (fun w => w.user_id = u && w.asset_type_id = aid) = none) :
    get_or_create_wallet s u aid b =
      ({ id := s.nextWalletId, user_id := u, asset_type_id := aid, balance := 0,
         is_system := b, version := 0 },
       { s with
           wallets := s.wallets ++
             [{ id := s.nextWalletId, user_id := u, asset_type_id := aid, balance := 0,
                is_system := b, version := 0 }],
           nextWalletId := s.nextWalletId + 1 }) := by
  simp only [get_or_create_wallet, h]

/-- The tables other than `wallets` are untouched by `_get_or_create_wallet`. -/
theorem get_or_create_wallet_frame (s : Store) (u : String) (aid : Nat) (b : Bool) :
    (get_or_create_wallet s u aid b).2.assets = s.assets ∧
    (get_or_create_wallet s u aid b).2.entries = s.entries ∧
    (get_or_create_wallet s u aid b).2.transactions = s.transactions ∧
    (get_or_create_wallet s u aid b).2.idem = s.idem ∧
    (get_or_create_wallet s u aid b).2.nextTxId = s.nextTxId := by
  cases h : s.wallets.find? (fun w => w.user_id = u && w.asset_type_id = aid) with
  | none =>
    rw [get_or_create_wallet_new b h]
    exact ⟨rfl, rfl, rfl, rfl, rfl⟩
  | some w =>
    rw [get_or_create_wallet_found b h]
    exact ⟨rfl, rfl, rfl, rfl, rfl⟩

theorem WF_get_or_create {s : Store} (hWF : WF s) (u : String) (aid : Nat) (b : Bool) :
    WF (get_or_create_wallet s u aid b).2 := by
  obtain ⟨hpw, hlt, hfk⟩ := hWF
  cases h : s.wallets.find? (fun w => w.user_id = u && w.asset_type_id = aid) with
  | some w => rw [get_or_create_wallet_found b h]; exact ⟨hpw, hlt, hfk⟩
  | none =>
    rw [get_or_create_wallet_new b h]
    refine ⟨?_, ?_, ?_⟩
    · rw [List.pairwise_append]
      refine ⟨hpw, List.pairwise_singleton _ _, ?_⟩
      intro v hv w' hw'
      rw [List.mem_singleton.mp hw']
      exact Nat.ne_of_lt (hlt v hv)
    · intro w hw
      rcases List.mem_append.mp hw with hold | hnew
      · exact Nat.lt_succ_of_lt (hlt w hold)
      · rw [List.mem_singleton.mp hnew]
        exact Nat.lt_succ_self _
    · intro e he
      obtain ⟨w, hw, hid⟩ := hfk e he
      exact ⟨w, List.mem_append_left _ hw, hid⟩

theorem BalancesMatchLedger_get_or_create {s : Store} (hWF : WF s)
    (hB : BalancesMatchLedger s) (u : String) (aid : Nat) (b : Bool) :
    BalancesMatchLedger (get_or_create_wallet s u aid b).2 := by
  cases h : s.wallets.find? (fun w => w.user_id = u && w.asset_type_id = aid) with
  | some w => rw [get_or_create_wallet_found b h]; exact hB
  | none =>
    rw [get_or_create_wallet_new b h]
    intro w hw
    rcases List.mem_append.mp hw with hold | hnew
    · exact hB w hold
    · rw [List.mem_singleton.mp hnew]
      have : ∀ e ∈ s.entries, e.wallet_id ≠ s.nextWalletId := by
        intro e he
        obtain ⟨v, hv, hid⟩ := hWF.2.2 e he
        rw [hid]
        exact Nat.ne_of_lt (hWF.2.1 v hv)
      rw [ledgerSum_eq_zero this]

theorem NonSystemNonNeg_get_or_create {s : Store} (hN : NonSystemNonNeg s)
    (u : String) (aid : Nat) (b : Bool) :
    NonSystemNonNeg (get_or_create_wallet s u aid b).2 := by
  cases h : s.wallets.find? (fun w => w.user_id = u && w.asset_type_id = aid) with
  | some w => rw [get_or_create_wallet_found b h]; exact hN
  | none =>
    rw [get_or_create_wallet_new b h]
    intro w hw hsys
    rcases List.mem_append.mp hw with hold | hnew
    · exact hN w hold hsys
    · rw [List.mem_singleton.mp hnew]

theorem Inv_get_or_create {s : Store} (hInv : Inv s) (u : String) (aid : Nat) (b : Bool) :
    Inv (get_or_create_wallet s u aid b).2 :=
  ⟨WF_get_or_create hInv.1 u aid b,
   BalancesMatchLedger_get_or_create hInv.1 hInv.2.1 u aid b,
   NonSystemNonNeg_get_or_create hInv.2.2 u aid b⟩

theorem Inv_execute_transaction {s : Store} {fid tid aid : Nat} {a : Int}
    {tt : TransactionType} {k : String} {d : Option String} {tx : Transaction} {s' : Store}
    (hInv : Inv s) (ha : 0 ≤ a)
    (h : execute_transaction s fid tid aid a tt k d = .ok (tx, s')) : Inv s' := by
  obtain ⟨fw, tw, hf, ht, hok, _, hs'⟩ := execute_transaction_ok_inv h
  rw [hs']
  exact ⟨WF_storeAfter hInv.1 hf ht aid a tt k d,
         BalancesMatchLedger_storeAfter hInv.2.1 hf ht aid a tt k d,
         NonSystemNonNeg_storeAfter hInv.1 hInv.2.2 ha hf ht hok aid tt k d⟩

/-! ## The three operations as flows -/

/-- The shared body of `topup_wallet` and `issue_bonus` after asset resolution:
get-or-create the user wallet (`is_system=False`), get-or-create the system
counterparty (`is_system=True`), transfer system → user. -/
def credit_flow (s : Store) (user_id sysName : String) (aid : Nat) (a : Int)
    (tt : TransactionType) (k : String) (d : Option String) :
    Except WalletError (Transaction × Store) :=
  let p1 := get_or_create_wallet s user_id aid false
  let p2 := get_or_create_wallet p1.2 sysName aid true
  execute_transaction p2.2 p2.1.id p1.1.id aid a tt k d

/-- The body of `spend_credits` after asset resolution: look up (never create)
the user wallet, get-or-create the system revenue wallet, transfer
user → system. -/
def spend_flow (s : Store) (user_id sysName : String) (aid : Nat) (a : Int)
    (k : String) (d : Option String) : Except WalletError (Transaction × Store) :=
  match s.wallets.find? (fun w => w.user_id = user_id && w.asset_type_id = aid) with
  | none => .error .walletNotFound
  | some user_wallet =>
    let p := get_or_create_wallet s sysName aid true
    execute_transaction p.2 user_wallet.id p.1.id aid a .SPEND k d

theorem topup_wallet_eq_flow (s : Store) (u c : String) (a : Int) (k : String)
    (d : Option String) :
    topup_wallet s u c a k d = (get_asset_type_by_code s c).bind
      (fun asset => credit_flow s u ("SYSTEM_TREASURY_" ++ c) asset.id a .TOPUP k
        (some (d.getD ("Wallet top-up for " ++ u)))) := by
  unfold topup_wallet credit_flow
  cases get_asset_type_by_code s c <;> rfl

theorem issue_bonus_eq_flow (s : Store) (u c : String) (a : Int) (k r : String) :
    issue_bonus s u c a k r = (get_asset_type_by_code s c).bind
      (fun asset => credit_flow s u ("SYSTEM_BONUS_POOL_" ++ c) asset.id a .BONUS k
        (some ("Bonus: " ++ r))) := by
  unfold issue_bonus credit_flow
  cases get_asset_type_by_code s c <;> rfl

theorem spend_credits_eq_flow (s : Store) (u c : String) (a : Int) (k : String)
    (d : Option String) :
    spend_credits s u c a k d = (get_asset_type_by_code s c).bind
      (fun asset => spend_flow s u ("SYSTEM_REVENUE_" ++ c) asset.id a k
        (some (d.getD ("Purchase by " ++ u)))) := by
  unfold spend_credits spend_flow
  cases get_asset_type_by_code s c <;> rfl

theorem execute_transaction_idem {s : Store} {fid tid aid : Nat} {a : Int}
    {tt : TransactionType} {k : String} {d : Option String} {tx : Transaction} {s' : Store}
    (h : execute_transaction s fid tid aid a tt k d = .ok (tx, s')) :
    s'.idem = s.idem := by
  obtain ⟨fw, tw, _, _, _, _, hs'⟩ := execute_transaction_ok_inv h
  rw [hs']
  rfl

theorem Inv_credit_flow {s : Store} {u sys : String} {aid : Nat} {a : Int}
    {tt : TransactionType} {k : String} {d : Option String} {tx : Transaction} {s' : Store}
    (hInv : Inv s) (ha : 0 ≤ a)
    (h : credit_flow s u sys aid a tt k d = .ok (tx, s')) : Inv s' :=
  Inv_execute_transaction
    (Inv_get_or_create (Inv_get_or_create hInv u aid false) sys aid true) ha h

theorem credit_flow_idem {s : Store} {u sys : String} {aid : Nat} {a : Int}
    {tt : TransactionType} {k : String} {d : Option String} {tx : Transaction} {s' : Store}
    (h : credit_flow s u sys aid a tt k d = .ok (tx, s')) : s'.idem = s.idem := by
  have h2 := execute_transaction_idem (s := (get_or_create_wallet
      (get_or_create_wallet s u aid false).2 sys aid true).2) h
  rw [h2, (get_or_create_wallet_frame _ _ _ _).2.2.2.1,
      (get_or_create_wallet_frame _ _ _ _).2.2.2.1]

theorem Inv_spend_flow {s : Store} {u sys : String} {aid : Nat} {a : Int}
    {k : String} {d : Option String} {tx : Transaction} {s' : Store}
    (hInv : Inv s) (ha : 0 ≤ a)
    (h : spend_flow s u sys aid a k d = .ok (tx, s')) : Inv s' := by
  unfold spend_flow at h
  cases hu : s.wallets.find? (fun w => w.user_id = u && w.asset_type_id = aid) with
  | none => rw [hu] at h; cases h
  | some uw =>
    rw [hu] at h
    exact Inv_execute_transaction (Inv_get_or_create hInv sys aid true) ha h

theorem spend_flow_idem {s : Store} {u sys : String} {aid : Nat} {a : Int}
    {k : String} {d : Option String} {tx : Transaction} {s' : Store}
    (h : spend_flow s u sys aid a k d = .ok (tx, s')) : s'.idem = s.idem := by
  unfold spend_flow at h
  cases hu : s.wallets.find? (fun w => w.user_id = u && w.asset_type_id = aid) with
  | none => rw [hu] at h; cases h
  | some uw =>
    rw [hu] at h
    have h2 := execute_transaction_idem h
    rw [h2, (get_or_create_wallet_frame _ _ _ _).2.2.2.1]

theorem Inv_runOp {s : Store} {o : Op} {tx : Transaction} {s' : Store}
    (hInv : Inv s) (ha : 0 ≤ o.amount) (h : runOp s o = .ok (tx, s')) : Inv s' := by
  cases o with
  | topup u c a k d =>
    rw [show runOp s (.topup u c a k d) = topup_wallet s u c a k d from rfl,
        topup_wallet_eq_flow] at h
    cases hasset : get_asset_type_by_code s c with
    | error e => rw [hasset] at h; simp [Except.bind] at h
    | ok asset => rw [hasset] at h; exact Inv_credit_flow hInv ha h
  | bonus u c a k r =>
    rw [show runOp s (.bonus u c a k r) = issue_bonus s u c a k r from rfl,
        issue_bonus_eq_flow] at h
    cases hasset : get_asset_type_by_code s c with
    | error e => rw [hasset] at h; simp [Except.bind] at h
    | ok asset => rw [hasset] at h; exact Inv_credit_flow hInv ha h
  | spend u c a k d =>
    rw [show runOp s (.spend u c a k d) = spend_credits s u c a k d from rfl,
        spend_credits_eq_flow] at h
    cases hasset : get_asset_type_by_code s c with
    | error e => rw [hasset] at h; simp [Except.bind] at h
    | ok asset => rw [hasset] at h; exact Inv_spend_flow hInv ha h

theorem Inv_applyOp {s : Store} {o : Op} (hInv : Inv s) (ha : 0 ≤ o.amount) :
    Inv (applyOp s o) := by
  unfold applyOp
  cases h : runOp s o with
  | ok p =>
    cases p with
    | mk tx s' => exact Inv_runOp hInv ha h
  | error e => exact hInv

theorem Inv_applyOps {s : Store} {ops : List Op} (ha : ∀ o ∈ ops, 0 ≤ o.amount)
    (hInv : Inv s) : Inv (applyOps s ops) := by
  induction ops generalizing s with
  | nil => exact hInv
  | cons o os ih =>
    exact ih (fun o' ho' => ha o' (List.mem_cons_of_mem _ ho'))
      (Inv_applyOp hInv (ha o (List.mem_cons_self _ _)))

/-- The insufficient-funds branch of `_execute_transaction`. -/
theorem execute_transaction_eq_error {s : Store} {fid tid : Nat} {fw tw : Wallet}
    (aid : Nat) (a : Int) (tt : TransactionType) (k : String) (d : Option String)
    (hf : findWalletById s.wallets fid = some fw)
    (ht : findWalletById s.wallets tid = some tw)
    (hbad : fw.is_system = false ∧ fw.balance < a) :
    execute_transaction s fid tid aid a tt k d =
      .error (.insufficientFunds fw.balance a) := by
  have hcond : ¬fw.is_system = true ∧ fw.balance < a :=
    ⟨by simp [hbad.1], hbad.2⟩
  simp only [execute_transaction, hf, ht, if_pos hcond]

/-- The `GOLD_COIN` asset of the seeded store. -/
def goldAsset : AssetType := { id := 1, code := "GOLD_COIN", is_active := true }

/-- The seeded system treasury wallet. -/
def treasuryW : Wallet :=
  { id := 1, user_id := "SYSTEM_TREASURY_GOLD_COIN", asset_type_id := 1,
    balance := -10000, is_system := true, version := 0 }

/-- The seeded wallet of user `alice`, holding 100.00 (10000 hundredths). -/
def aliceW : Wallet :=
  { id := 2, user_id := "alice", asset_type_id := 1, balance := 10000,
    is_system := false, version := 0 }

/-- A seeded concrete store used by the witnesses: asset `GOLD_COIN`, a system
treasury wallet, and user `alice` holding 100.00 (10000 hundredths), with a
matching transaction and ledger trail. -/
def seedStore : Store :=
  { assets := [goldAsset],
    wallets := [treasuryW, aliceW],
    transactions :=
      [{ id := 1, idempotency_key := "k0", transaction_type := .TOPUP,
         status := .COMPLETED, from_wallet_id := 1, to_wallet_id := 2,
         asset_type_id := 1, amount := 10000, description := none }],
    entries :=
      [{ transaction_id := 1, wallet_id := 1, entry_type := .DEBIT,
         amount := -10000, balance_after := -10000 },
       { transaction_id := 1, wallet_id := 2, entry_type := .CREDIT,
         amount := 10000, balance_after := 10000 }],
    idem := [], nextWalletId := 3, nextTxId := 2 }

/-! ## Claim theorems -/

/-- **C2** — every completed transfer writes exactly two ledger entries, both
referencing the new transaction header: a DEBIT on the from-wallet with amount
`-A` and `balance_after` the from-wallet's balance after the debit, and a
CREDIT on the to-wallet with amount `+A` and `balance_after` the to-wallet's
balance after the credit. -/
theorem transfer_double_entry {s : Store} {fid tid aid : Nat} {a : Int}
    {tt : TransactionType} {k : String} {d : Option String} {tx : Transaction} {s' : Store}
    (hne : fid ≠ tid)
    (h : execute_transaction s fid tid aid a tt k d = .ok (tx, s')) :
    s'.entries = s.entries ++
      [{ transaction_id := tx.id, wallet_id := fid, entry_type := .DEBIT,
         amount := -a, balance_after := balanceOf s.wallets fid - a },
       { transaction_id := tx.id, wallet_id := tid, entry_type := .CREDIT,
         amount := a, balance_after := balanceOf s.wallets tid + a }] ∧
    balanceOf s'.wallets fid = balanceOf s.wallets fid - a ∧
    balanceOf s'.wallets tid = balanceOf s.wallets tid + a := by
  obtain ⟨fw, tw, hf, ht, hok, htx, hs'⟩ := execute_transaction_ok_inv h
  subst hs'
  subst htx
  have hbsf : balanceOf s.wallets fid = fw.balance := by
    unfold balanceOf
    rw [hf]
  have hbst : balanceOf s.wallets tid = tw.balance := by
    unfold balanceOf
    rw [ht]
  have e1 : balanceOf (walletsAfter s fid tid a) fid = balanceOf s.wallets fid - a := by
    rw [balanceOf_walletsAfter hf, hbsf, if_pos rfl, if_neg hne]
    ring
  have e2 : balanceOf (walletsAfter s fid tid a) tid = balanceOf s.wallets tid + a := by
    rw [balanceOf_walletsAfter ht, hbst, if_neg (Ne.symm hne), if_pos rfl]
    ring
  refine ⟨?_, e1, e2⟩
  show s.entries ++ _ = s.entries ++ _
  rw [e1, e2]
  rfl

/-- **C3** — a transfer fails `INSUFFICIENT_FUNDS` (reporting the available and
requested amounts) exactly when the from-wallet is non-system with balance
below the amount; no other error is possible once both wallets are found; a
system from-wallet always passes the check and its balance is still
decremented. -/
theorem insufficient_funds_check {s : Store} {fid tid : Nat} {fw tw : Wallet}
    (aid : Nat) (a : Int) (tt : TransactionType) (k : String) (d : Option String)
    (hf : findWalletById s.wallets fid = some fw)
    (ht : findWalletById s.wallets tid = some tw)
    (hne : fid ≠ tid) :
    (execute_transaction s fid tid aid a tt k d =
        .error (.insufficientFunds fw.balance a) ↔
      fw.is_system = false ∧ fw.balance < a) ∧
    (∀ e, execute_transaction s fid tid aid a tt k d = .error e →
      e = .insufficientFunds fw.balance a) ∧
    (fw.is_system = true →
      ∃ tx s', execute_transaction s fid tid aid a tt k d = .ok (tx, s') ∧
        balanceOf s'.wallets fid = fw.balance - a) := by
  refine ⟨⟨?_, ?_⟩, ?_, ?_⟩
  · intro herr
    by_cases hbad : fw.is_system = false ∧ fw.balance < a
    · exact hbad
    · rw [execute_transaction_eq_ok aid a tt k d hf ht hbad] at herr
      cases herr
  · intro hbad
    exact execute_transaction_eq_error aid a tt k d hf ht hbad
  · intro e herr
    by_cases hbad : fw.is_system = false ∧ fw.balance < a
    · rw [execute_transaction_eq_error aid a tt k d hf ht hbad] at herr
      injection herr with he
      exact he.symm
    · rw [execute_transaction_eq_ok aid a tt k d hf ht hbad] at herr
      cases herr
  · intro hsys
    have hok : ¬(fw.is_system = false ∧ fw.balance < a) := by
      intro hc
      rw [hsys] at hc
      cases hc.1
    refine ⟨txOf s fid tid aid a tt k d, storeAfter s fid tid aid a tt k d,
      execute_transaction_eq_ok aid a tt k d hf ht hok, ?_⟩
    show balanceOf (walletsAfter s fid tid a) fid = fw.balance - a
    rw [balanceOf_walletsAfter hf, if_pos rfl, if_neg hne]
    ring

/-- **C8 amended** — `_execute_transaction` leaves every wallet's `version`
counter unchanged: the wallet table after a successful transfer has the same
versions (and ids) as before. -/
theorem transfer_leaves_versions_unchanged {s : Store} {fid tid aid : Nat} {a : Int}
    {tt : TransactionType} {k : String} {d : Option String} {tx : Transaction} {s' : Store}
    (h : execute_transaction s fid tid aid a tt k d = .ok (tx, s')) :
    s'.wallets.map Wallet.version = s.wallets.map Wallet.version ∧
    s'.wallets.map Wallet.id = s.wallets.map Wallet.id := by
  obtain ⟨fw, tw, _, _, _, _, hs'⟩ := execute_transaction_ok_inv h
  subst hs'
  constructor
  · show (walletsAfter s fid tid a).map _ = _
    rw [walletsAfter_eq_map, List.map_map]
    apply List.map_congr_left
    intro w _
    rfl
  · show (walletsAfter s fid tid a).map _ = _
    rw [walletsAfter_eq_map, List.map_map]
    apply List.map_congr_left
    intro w _
    rfl

/-- **C8 counterexample** — on the seeded store, a successful transfer leaves
both mutated wallets at version 0 (their prior value), not 0 + 1: the claim
that the version counter is incremented by one is false on the code. -/
theorem version_not_incremented :
    ((execute_transaction seedStore 1 2 1 500 .TOPUP "k" none).toOption.bind
        (fun p => findWalletById p.2.wallets 1)).map Wallet.version = some 0 ∧
    ((execute_transaction seedStore 1 2 1 500 .TOPUP "k" none).toOption.bind
        (fun p => findWalletById p.2.wallets 2)).map Wallet.version = some 0 ∧
    (findWalletById seedStore.wallets 1).map Wallet.version = some 0 ∧
    (findWalletById seedStore.wallets 2).map Wallet.version = some 0 ∧
    (0 : Nat) ≠ 0 + 1 := by
  refine ⟨rfl, rfl, rfl, rfl, by decide⟩

/-- **C10** — when a wallet already exists for `(user_id, asset_type_id)`,
`_get_or_create_wallet` returns it with all fields unchanged and leaves the
store untouched, whatever `is_system` the caller supplies. -/
theorem acquire_existing_wallet_unchanged {s : Store} {u : String} {aid : Nat} {w : Wallet}
    (h : s.wallets.find? (fun w => w.user_id = u && w.asset_type_id = aid) = some w)
    (b : Bool) :
    get_or_create_wallet s u aid b = (w, s) :=
  get_or_create_wallet_found b h

/-- The body of `get_wallet_balance` after asset resolution: return the found
wallet, or create one with zero balance. -/
def balance_flow (s : Store) (u : String) (aid : Nat) (asset : AssetType) :
    Except WalletError ((Wallet × AssetType) × Store) :=
  match s.wallets.find? (fun w => w.user_id = u && w.asset_type_id = aid) with
  | some wallet => .ok ((wallet, asset), s)
  | none => .ok (((get_or_create_wallet s u aid false).1, asset),
                 (get_or_create_wallet s u aid false).2)

theorem get_wallet_balance_eq_flow (s : Store) (u c : String) :
    get_wallet_balance s u c = (get_asset_type_by_code s c).bind
      (fun asset => balance_flow s u asset.id asset) := by
  unfold get_wallet_balance balance_flow
  cases get_asset_type_by_code s c <;> rfl

/-- **C9** — `get_wallet_balance` returns `(wallet, asset)` whenever the asset
code resolves: it returns the existing wallet and store unchanged when the
wallet exists, and otherwise creates (and keeps) a zero-balance wallet, so it
never fails with a wallet-related error. -/
theorem balance_query_never_wallet_error {s : Store} {c : String} {asset : AssetType}
    (u : String) (hasset : get_asset_type_by_code s c = .ok asset) :
    ∃ w s', get_wallet_balance s u c = .ok ((w, asset), s') ∧
      w.user_id = u ∧ w.asset_type_id = asset.id ∧
      (s.wallets.find? (fun w => w.user_id = u && w.asset_type_id = asset.id) = none →
        w.balance = 0 ∧ w ∈ s'.wallets) ∧
      (∀ w0, s.wallets.find? (fun w => w.user_id = u && w.asset_type_id = asset.id) = some w0 →
        w = w0 ∧ s' = s) := by
  have hred0 := get_wallet_balance_eq_flow s u c
  rw [hasset] at hred0
  have hred : get_wallet_balance s u c = balance_flow s u asset.id asset :=
    hred0.trans rfl
  cases hu : s.wallets.find? (fun w => w.user_id = u && w.asset_type_id = asset.id) with
  | some w0 =>
    have hb : balance_flow s u asset.id asset = .ok ((w0, asset), s) := by
      simp only [balance_flow, hu]
    have hpred := List.find?_some hu
    simp only [Bool.and_eq_true, decide_eq_true_eq] at hpred
    refine ⟨w0, s, hred.trans hb, hpred.1, hpred.2, ?_, ?_⟩
    · intro hnone
      cases hnone
    · intro w1 hw1
      injection hw1 with hthis
      exact ⟨hthis, rfl⟩
  | none =>
    have hb : balance_flow s u asset.id asset =
        .ok (((get_or_create_wallet s u asset.id false).1, asset),
             (get_or_create_wallet s u asset.id false).2) := by
      simp only [balance_flow, hu]
    rw [get_or_create_wallet_new false hu] at hb
    refine ⟨_, _, hred.trans hb, rfl, rfl, ?_, ?_⟩
    · intro _
      exact ⟨rfl, List.mem_append_right _ (List.mem_singleton_self _)⟩
    · intro w1 hw1
      cases hw1

/-- What `_get_or_create_wallet` guarantees about its result: the store stays
well-formed, the returned wallet is in it with the requested key, old wallets
persist, and the wallet either pre-existed or is fresh (zero balance, the
supplied flag, an id no old wallet has). -/
theorem get_or_create_wallet_spec {s : Store} (hWF : WF s) (u : String) (aid : Nat) (b : Bool) :
    WF (get_or_create_wallet s u aid b).2 ∧
    (get_or_create_wallet s u aid b).1 ∈ (get_or_create_wallet s u aid b).2.wallets ∧
    (get_or_create_wallet s u aid b).1.user_id = u ∧
    (get_or_create_wallet s u aid b).1.asset_type_id = aid ∧
    (∀ w ∈ s.wallets, w ∈ (get_or_create_wallet s u aid b).2.wallets) ∧
    ((get_or_create_wallet s u aid b).1 ∈ s.wallets ∨
      ((get_or_create_wallet s u aid b).1.is_system = b ∧
       (get_or_create_wallet s u aid b).1.balance = 0 ∧
       ∀ w ∈ s.wallets, w.id ≠ (get_or_create_wallet s u aid b).1.id)) := by
  cases h : s.wallets.find? (fun w => w.user_id = u && w.asset_type_id = aid) with
  | some w =>
    rw [get_or_create_wallet_found b h]
    have hpred := List.find?_some h
    simp only [Bool.and_eq_true, decide_eq_true_eq] at hpred
    exact ⟨hWF, List.mem_of_find?_eq_some h, hpred.1, hpred.2, fun w hw => hw,
      .inl (List.mem_of_find?_eq_some h)⟩
  | none =>
    have hWF' := WF_get_or_create hWF u aid b
    rw [get_or_create_wallet_new b h] at hWF'
    rw [get_or_create_wallet_new b h]
    exact ⟨hWF', List.mem_append_right _ (List.mem_singleton_self _), rfl, rfl,
      fun w hw => List.mem_append_left _ hw,
      .inr ⟨rfl, rfl, fun w hw => Nat.ne_of_lt (hWF.2.1 w hw)⟩⟩

/-- A credit flow (topup/bonus) where the user wallet is absent, the user id is
not the system wallet's name, and any wallet already named like the system
wallet is a system wallet: the user wallet is created with zero balance, the
transfer completes, and both wallets are present afterwards. -/
theorem credit_flow_creates_user_wallet {s : Store} {u sys : String} {aid : Nat}
    (a : Int) (tt : TransactionType) (k : String) (d : Option String)
    (hWF : WF s)
    (hnone : s.wallets.find? (fun w => w.user_id = u && w.asset_type_id = aid) = none)
    (hne : u ≠ sys)
    (hsys : ∀ w ∈ s.wallets, w.user_id = sys → w.asset_type_id = aid → w.is_system = true) :
    ∃ tx s', credit_flow s u sys aid a tt k d = .ok (tx, s') ∧
      (∃ w ∈ s'.wallets, w.user_id = u ∧ w.asset_type_id = aid ∧
        w.is_system = false ∧ w.balance = a) ∧
      ∃ wt ∈ s'.wallets, wt.user_id = sys ∧ wt.asset_type_id = aid ∧
        wt.is_system = true := by
  obtain ⟨w0, s1, hp1⟩ : ∃ w s', get_or_create_wallet s u aid false = (w, s') := ⟨_, _, rfl⟩
  have hkey := (get_or_create_wallet_new false hnone).symm.trans hp1
  have hw0 : w0 = { id := s.nextWalletId, user_id := u, asset_type_id := aid,
                    balance := 0, is_system := false, version := 0 } :=
    (congrArg Prod.fst hkey).symm
  have hs1 : s1 = { s with wallets := s.wallets ++ [w0],
                           nextWalletId := s.nextWalletId + 1 } := by
    rw [hw0]
    exact (congrArg Prod.snd hkey).symm
  have hWF1 : WF s1 := by
    have h := WF_get_or_create hWF u aid false
    rw [hp1] at h
    exact h
  have hw0mem1 : w0 ∈ s1.wallets := by
    rw [hs1]
    exact List.mem_append_right _ (List.mem_singleton_self _)
  obtain ⟨sw, s2, hp2⟩ : ∃ w s', get_or_create_wallet s1 sys aid true = (w, s') := ⟨_, _, rfl⟩
  have hspec := get_or_create_wallet_spec hWF1 sys aid true
  rw [hp2] at hspec
  have hWF2 : WF s2 := hspec.1
  have hswmem : sw ∈ s2.wallets := hspec.2.1
  have hswu : sw.user_id = sys := hspec.2.2.1
  have hswa : sw.asset_type_id = aid := hspec.2.2.2.1
  have hall : ∀ w ∈ s1.wallets, w ∈ s2.wallets := hspec.2.2.2.2.1
  have hswsys : sw.is_system = true := by
    rcases hspec.2.2.2.2.2 with hin | hnew2
    · rw [hs1] at hin
      rcases List.mem_append.mp hin with hins | hinw0
      · exact hsys sw hins hswu hswa
      · exfalso
        apply hne
        have hswe : sw = w0 := List.mem_singleton.mp hinw0
        rw [← hswu, hswe, hw0]
    · exact hnew2.1
  have hw0mem2 : w0 ∈ s2.wallets := hall w0 hw0mem1
  have hidne : sw.id ≠ w0.id := by
    intro hh
    apply hne
    have hswe : sw = w0 := mem_id_unique hWF2.1 hswmem hw0mem2 hh
    rw [← hswu, hswe, hw0]
  have hfsw : findWalletById s2.wallets sw.id = some sw := findWalletById_of_mem hWF2.1 hswmem
  have hfw0 : findWalletById s2.wallets w0.id = some w0 :=
    findWalletById_of_mem hWF2.1 hw0mem2
  have hok : ¬(sw.is_system = false ∧ sw.balance < a) := by
    simp [hswsys]
  have hexec := execute_transaction_eq_ok aid a tt k d hfsw hfw0 hok
  have hflow : credit_flow s u sys aid a tt k d =
      execute_transaction s2 sw.id w0.id aid a tt k d := by
    simp only [credit_flow, hp1, hp2]
  refine ⟨_, _, hflow.trans hexec, ?_, ?_⟩
  · refine ⟨updFun sw.id w0.id a w0, ?_, ?_, ?_, ?_, ?_⟩
    · show _ ∈ walletsAfter s2 sw.id w0.id a
      rw [walletsAfter_eq_map]
      exact List.mem_map_of_mem _ hw0mem2
    · rw [updFun_user_id, hw0]
    · rw [updFun_asset_type_id, hw0]
    · rw [updFun_is_system, hw0]
    · rw [updFun_balance, if_neg (fun hh => hidne hh.symm), if_pos rfl, hw0]
      ring
  · refine ⟨updFun sw.id w0.id a sw, ?_, ?_, ?_, ?_⟩
    · show _ ∈ walletsAfter s2 sw.id w0.id a
      rw [walletsAfter_eq_map]
      exact List.mem_map_of_mem _ hswmem
    · rw [updFun_user_id]
      exact hswu
    · rw [updFun_asset_type_id]
      exact hswa
    · rw [updFun_is_system]
      exact hswsys

/-- A spend flow where the user wallet exists with sufficient balance and the
system revenue wallet is absent: the revenue wallet is created on demand
(`is_system = true`) and the transfer completes. -/
theorem spend_flow_creates_revenue {s : Store} {u sys : String} {aid : Nat} {uw : Wallet}
    (a : Int) (k : String) (d : Option String)
    (hWF : WF s)
    (hfound : s.wallets.find? (fun w => w.user_id = u && w.asset_type_id = aid) = some uw)
    (hbal : a ≤ uw.balance)
    (hrev : s.wallets.find? (fun w => w.user_id = sys && w.asset_type_id = aid) = none) :
    ∃ tx s', spend_flow s u sys aid a k d = .ok (tx, s') ∧
      ∃ wr ∈ s'.wallets, wr.user_id = sys ∧ wr.asset_type_id = aid ∧
        wr.is_system = true := by
  obtain ⟨wr0, s1, hp⟩ : ∃ w s', get_or_create_wallet s sys aid true = (w, s') := ⟨_, _, rfl⟩
  have hkey := (get_or_create_wallet_new true hrev).symm.trans hp
  have hwr0 : wr0 = { id := s.nextWalletId, user_id := sys, asset_type_id := aid,
                      balance := 0, is_system := true, version := 0 } :=
    (congrArg Prod.fst hkey).symm
  have hs1 : s1 = { s with wallets := s.wallets ++ [wr0],
                           nextWalletId := s.nextWalletId + 1 } := by
    rw [hwr0]
    exact (congrArg Prod.snd hkey).symm
  have hWF1 : WF s1 := by
    have h := WF_get_or_create hWF sys aid true
    rw [hp] at h
    exact h
  have huwmem : uw ∈ s.wallets := List.mem_of_find?_eq_some hfound
  have huwmem1 : uw ∈ s1.wallets := by
    rw [hs1]
    exact List.mem_append_left _ huwmem
  have hwrmem1 : wr0 ∈ s1.wallets := by
    rw [hs1]
    exact List.mem_append_right _ (List.mem_singleton_self _)
  have hfuw : findWalletById s1.wallets uw.id = some uw := findWalletById_of_mem hWF1.1 huwmem1
  have hfwr : findWalletById s1.wallets wr0.id = some wr0 :=
    findWalletById_of_mem hWF1.1 hwrmem1
  have hok : ¬(uw.is_system = false ∧ uw.balance < a) := fun hc =>
    absurd hbal (not_le.mpr hc.2)
  have hexec := execute_transaction_eq_ok aid a .SPEND k d hfuw hfwr hok
  have hflow : spend_flow s u sys aid a k d =
      execute_transaction s1 uw.id wr0.id aid a .SPEND k d := by
    simp only [spend_flow, hfound, hp]
  refine ⟨_, _, hflow.trans hexec, updFun uw.id wr0.id a wr0, ?_, ?_, ?_, ?_⟩
  · show _ ∈ walletsAfter s1 uw.id wr0.id a
    rw [walletsAfter_eq_map]
    exact List.mem_map_of_mem _ hwrmem1
  · rw [updFun_user_id, hwr0]
  · rw [updFun_asset_type_id, hwr0]
  · rw [updFun_is_system, hwr0]

/-- **C6** — for a resolving asset: topup and bonus create the absent user
wallet (zero balance, credited to `a` by the completed transfer) with the
system counterparty present; spend fails `WALLET_NOT_FOUND` when the user
wallet is absent (creating nothing); and spend creates the system revenue
wallet on demand when the user wallet exists. -/
theorem wallet_materialization_policy (s : Store) (u c k : String) (a : Int)
    (asset : AssetType) (d : Option String) (r : String)
    (hWF : WF s) (hasset : get_asset_type_by_code s c = .ok asset) :
    ((s.wallets.find? (fun w => w.user_id = u && w.asset_type_id = asset.id) = none →
      u ≠ "SYSTEM_TREASURY_" ++ c →
      (∀ w ∈ s.wallets, w.user_id = "SYSTEM_TREASURY_" ++ c →
        w.asset_type_id = asset.id → w.is_system = true) →
      ∃ tx s', topup_wallet s u c a k d = .ok (tx, s') ∧
        (∃ w ∈ s'.wallets, w.user_id = u ∧ w.asset_type_id = asset.id ∧
          w.is_system = false ∧ w.balance = a) ∧
        ∃ wt ∈ s'.wallets, wt.user_id = "SYSTEM_TREASURY_" ++ c ∧
          wt.asset_type_id = asset.id ∧ wt.is_system = true)) ∧
    ((s.wallets.find? (fun w => w.user_id = u && w.asset_type_id = asset.id) = none →
      u ≠ "SYSTEM_BONUS_POOL_" ++ c →
      (∀ w ∈ s.wallets, w.user_id = "SYSTEM_BONUS_POOL_" ++ c →
        w.asset_type_id = asset.id → w.is_system = true) →
      ∃ tx s', issue_bonus s u c a k r = .ok (tx, s') ∧
        (∃ w ∈ s'.wallets, w.user_id = u ∧ w.asset_type_id = asset.id ∧
          w.is_system = false ∧ w.balance = a) ∧
        ∃ wt ∈ s'.wallets, wt.user_id = "SYSTEM_BONUS_POOL_" ++ c ∧
          wt.asset_type_id = asset.id ∧ wt.is_system = true)) ∧
    (s.wallets.find? (fun w => w.user_id = u && w.asset_type_id = asset.id) = none →
      spend_credits s u c a k d = .error .walletNotFound) ∧
    (∀ uw, s.wallets.find? (fun w => w.user_id = u && w.asset_type_id = asset.id) = some uw →
      a ≤ uw.balance →
      s.wallets.find? (fun w => w.user_id = "SYSTEM_REVENUE_" ++ c &&
        w.asset_type_id = asset.id) = none →
      ∃ tx s', spend_credits s u c a k d = .ok (tx, s') ∧
        ∃ wr ∈ s'.wallets, wr.user_id = "SYSTEM_REVENUE_" ++ c ∧
          wr.asset_type_id = asset.id ∧ wr.is_system = true) := by
  refine ⟨?_, ?_, ?_, ?_⟩
  · intro hnone hne hsys
    rw [topup_wallet_eq_flow, hasset]
    exact credit_flow_creates_user_wallet a .TOPUP k
      (some (d.getD ("Wallet top-up for " ++ u))) hWF hnone hne hsys
  · intro hnone hne hsys
    rw [issue_bonus_eq_flow, hasset]
    exact credit_flow_creates_user_wallet a .BONUS k
      (some ("Bonus: " ++ r)) hWF hnone hne hsys
  · intro hnone
    rw [spend_credits_eq_flow, hasset]
    show spend_flow s u ("SYSTEM_REVENUE_" ++ c) asset.id a k
      (some (d.getD ("Purchase by " ++ u))) = .error .walletNotFound
    simp only [spend_flow, hnone]
  · intro uw hfound hbal hrev
    rw [spend_credits_eq_flow, hasset]
    exact spend_flow_creates_revenue a k
      (some (d.getD ("Purchase by " ++ u))) hWF hfound hbal hrev

/-- **C1 amended** — starting from a well-formed store in which every wallet's
balance equals its ledger sum and every non-system balance is non-negative, any
sequence of topup/bonus/spend operations with positive (schema-validated)
amounts preserves both: after every operation each wallet's balance equals the
sum of its ledger entries and each non-system balance stays non-negative. -/
theorem ledger_balance_invariant {s : Store} {ops : List Op}
    (hpos : ∀ o ∈ ops, 0 < o.amount)
    (hWF : WF s) (hsum : BalancesMatchLedger s) (hnn : NonSystemNonNeg s) :
    BalancesMatchLedger (applyOps s ops) ∧ NonSystemNonNeg (applyOps s ops) := by
  have h := Inv_applyOps (fun o ho => le_of_lt (hpos o ho)) ⟨hWF, hsum, hnn⟩
  exact ⟨h.2.1, h.2.2⟩

/-- A well-formed store in which every balance equals its ledger sum but one
non-system wallet (`bob`) is negative. -/
def negStore : Store :=
  { assets := [{ id := 1, code := "GOLD_COIN", is_active := true }],
    wallets :=
      [{ id := 1, user_id := "SYSTEM_TREASURY_GOLD_COIN", asset_type_id := 1,
         balance := 0, is_system := true, version := 0 },
       { id := 2, user_id := "bob", asset_type_id := 1, balance := -500,
         is_system := false, version := 0 }],
    transactions := [],
    entries :=
      [{ transaction_id := 1, wallet_id := 2, entry_type := .DEBIT,
         amount := -500, balance_after := -500 }],
    idem := [], nextWalletId := 3, nextTxId := 1 }

/-- **C1 counterexample** — from a store where every balance equals its ledger
sum (but a non-system balance is negative), a topup with a positive amount
completes successfully, yet afterwards not every non-system wallet has a
non-negative balance: the claim's precondition (ledger agreement alone) does
not give the stated `balance ≥ 0` conclusion. -/
theorem ledger_balance_invariant_cex :
    BalancesMatchLedger negStore ∧
    (0 : Int) < (Op.topup "alice" "GOLD_COIN" 100 "k1" none).amount ∧
    (runOp negStore (.topup "alice" "GOLD_COIN" 100 "k1" none)).isOk = true ∧
    ¬ NonSystemNonNeg (applyOps negStore [.topup "alice" "GOLD_COIN" 100 "k1" none]) := by
  refine ⟨?_, by decide, rfl, ?_⟩
  · unfold BalancesMatchLedger
    decide
  · unfold NonSystemNonNeg
    decide

/-! ## Idempotency layer -/

theorem topup_wallet_idem {s : Store} {u c : String} {a : Int} {k : String}
    {d : Option String} {tx : Transaction} {s' : Store}
    (h : topup_wallet s u c a k d = .ok (tx, s')) : s'.idem = s.idem := by
  rw [topup_wallet_eq_flow] at h
  cases hasset : get_asset_type_by_code s c with
  | error e =>
    rw [hasset] at h
    simp [Except.bind] at h
  | ok asset =>
    rw [hasset] at h
    exact credit_flow_idem h

theorem issue_bonus_idem {s : Store} {u c : String} {a : Int} {k r : String}
    {tx : Transaction} {s' : Store}
    (h : issue_bonus s u c a k r = .ok (tx, s')) : s'.idem = s.idem := by
  rw [issue_bonus_eq_flow] at h
  cases hasset : get_asset_type_by_code s c with
  | error e =>
    rw [hasset] at h
    simp [Except.bind] at h
  | ok asset =>
    rw [hasset] at h
    exact credit_flow_idem h

theorem spend_credits_idem {s : Store} {u c : String} {a : Int} {k : String}
    {d : Option String} {tx : Transaction} {s' : Store}
    (h : spend_credits s u c a k d = .ok (tx, s')) : s'.idem = s.idem := by
  rw [spend_credits_eq_flow] at h
  cases hasset : get_asset_type_by_code s c with
  | error e =>
    rw [hasset] at h
    simp [Except.bind] at h
  | ok asset =>
    rw [hasset] at h
    exact spend_flow_idem h

/-- Inversion of a successful `_save_idempotency_log` flush: no row with this
key existed, and exactly the new row (with `expires_at = now + 24h`) was
appended. -/
theorem save_idempotency_log_ok_inv {s : Store} {now : Nat} {k path method : String}
    {st : Nat} {body : TransactionResponse} {s2 : Store}
    (h : save_idempotency_log s now k path method st body = .ok s2) :
    (∀ l ∈ s.idem, l.idempotency_key ≠ k) ∧
    s2 = { s with idem := s.idem ++
      [{ idempotency_key := k, request_path := path, request_method := method,
         response_status := st, response_body := body, expires_at := now + 24 }] } := by
  unfold save_idempotency_log at h
  by_cases hany : s.idem.any (fun l => l.idempotency_key = k) = true
  · rw [if_pos hany] at h
    cases h
  · rw [if_neg hany] at h
    refine ⟨?_, ?_⟩
    · intro l hl
      have := List.any_eq_false.mp (Bool.not_eq_true _ ▸ hany) l hl
      simpa using this
    · injection h with h2
      exact h2.symm

theorem topup_endpoint_success_inv {s : Store} {now : Nat} {k u c : String} {a : Int}
    {d : Option String} {body : TransactionResponse} {s1 : Store}
    (hfirst : check_idempotency s now k = none)
    (h : topup_endpoint s now k u c a d = (.success 201 body, s1)) :
    (∀ l ∈ s.idem, l.idempotency_key ≠ k) ∧
    s1.idem = s.idem ++
      [{ idempotency_key := k, request_path := "/api/v1/wallets/topup",
         request_method := "POST", response_status := 201, response_body := body,
         expires_at := now + 24 }] := by
  unfold topup_endpoint at h
  rw [hfirst] at h
  cases hb : topup_wallet s u c a k d with
  | error e =>
    rw [hb] at h
    exfalso
    cases e <;> simp [topup_error_response] at h
  | ok p =>
    cases p with
    | mk tx s2 =>
      rw [hb] at h
      have hm : (match save_idempotency_log s2 now k "/api/v1/wallets/topup" "POST" 201
          (mkTransactionResponse tx) with
        | Except.error _ => (Response.serverError, sessionRollback s)
        | Except.ok s3 => (Response.success 201 (mkTransactionResponse tx), s3)) =
          (Response.success 201 body, s1) := h
      cases hsv : save_idempotency_log s2 now k "/api/v1/wallets/topup" "POST" 201
          (mkTransactionResponse tx) with
      | error e2 =>
        rw [hsv] at hm
        simp at hm
      | ok s3 =>
        rw [hsv] at hm
        injection hm with hresp hstore
        injection hresp with _ hbody
        obtain ⟨hnok, hs3⟩ := save_idempotency_log_ok_inv hsv
        have hidem := topup_wallet_idem hb
        subst hstore
        subst hbody
        rw [hidem] at hnok
        constructor
        · exact hnok
        · rw [hs3]
          rw [show ({ s2 with idem := s2.idem ++ [_] } : Store).idem = s2.idem ++ _ from rfl,
              hidem]

theorem bonus_endpoint_success_inv {s : Store} {now : Nat} {k u c : String} {a : Int}
    {r : String} {body : TransactionResponse} {s1 : Store}
    (hfirst : check_idempotency s now k = none)
    (h : bonus_endpoint s now k u c a r = (.success 201 body, s1)) :
    (∀ l ∈ s.idem, l.idempotency_key ≠ k) ∧
    s1.idem = s.idem ++
      [{ idempotency_key := k, request_path := "/api/v1/wallets/bonus",
         request_method := "POST", response_status := 201, response_body := body,
         expires_at := now + 24 }] := by
  unfold bonus_endpoint at h
  rw [hfirst] at h
  cases hb : issue_bonus s u c a k r with
  | error e =>
    rw [hb] at h
    exfalso
    cases e <;> simp [bonus_error_response] at h
  | ok p =>
    cases p with
    | mk tx s2 =>
      rw [hb] at h
      have hm : (match save_idempotency_log s2 now k "/api/v1/wallets/bonus" "POST" 201
          (mkTransactionResponse tx) with
        | Except.error _ => (Response.serverError, sessionRollback s)
        | Except.ok s3 => (Response.success 201 (mkTransactionResponse tx), s3)) =
          (Response.success 201 body, s1) := h
      cases hsv : save_idempotency_log s2 now k "/api/v1/wallets/bonus" "POST" 201
          (mkTransactionResponse tx) with
      | error e2 =>
        rw [hsv] at hm
        simp at hm
      | ok s3 =>
        rw [hsv] at hm
        injection hm with hresp hstore
        injection hresp with _ hbody
        obtain ⟨hnok, hs3⟩ := save_idempotency_log_ok_inv hsv
        have hidem := issue_bonus_idem hb
        subst hstore
        subst hbody
        rw [hidem] at hnok
        constructor
        · exact hnok
        · rw [hs3]
          rw [show ({ s2 with idem := s2.idem ++ [_] } : Store).idem = s2.idem ++ _ from rfl,
              hidem]

theorem spend_endpoint_success_inv {s : Store} {now : Nat} {k u c : String} {a : Int}
    {d : Option String} {body : TransactionResponse} {s1 : Store}
    (hfirst : check_idempotency s now k = none)
    (h : spend_endpoint s now k u c a d = (.success 201 body, s1)) :
    (∀ l ∈ s.idem, l.idempotency_key ≠ k) ∧
    s1.idem = s.idem ++
      [{ idempotency_key := k, request_path := "/api/v1/wallets/spend",
         request_method := "POST", response_status := 201, response_body := body,
         expires_at := now + 24 }] := by
  unfold spend_endpoint at h
  rw [hfirst] at h
  cases hb : spend_credits s u c a k d with
  | error e =>
    rw [hb] at h
    exfalso
    cases e <;> simp [spend_error_response] at h
  | ok p =>
    cases p with
    | mk tx s2 =>
      rw [hb] at h
      have hm : (match save_idempotency_log s2 now k "/api/v1/wallets/spend" "POST" 201
          (mkTransactionResponse tx) with
        | Except.error _ => (Response.serverError, sessionRollback s)
        | Except.ok s3 => (Response.success 201 (mkTransactionResponse tx), s3)) =
          (Response.success 201 body, s1) := h
      cases hsv : save_idempotency_log s2 now k "/api/v1/wallets/spend" "POST" 201
          (mkTransactionResponse tx) with
      | error e2 =>
        rw [hsv] at hm
        simp at hm
      | ok s3 =>
        rw [hsv] at hm
        injection hm with hresp hstore
        injection hresp with _ hbody
        obtain ⟨hnok, hs3⟩ := save_idempotency_log_ok_inv hsv
        have hidem := spend_credits_idem hb
        subst hstore
        subst hbody
        rw [hidem] at hnok
        constructor
        · exact hnok
        · rw [hs3]
          rw [show ({ s2 with idem := s2.idem ++ [_] } : Store).idem = s2.idem ++ _ from rfl,
              hidem]

/-- **C4** — when a first mutating request with a fresh idempotency key succeeds
(producing a 201 and a stored record), any later mutating request with the same
key arriving before `created + 24h` returns the identical response and leaves
the store exactly as it was: no transaction header, ledger entry, balance
change, or idempotency record is added. -/
theorem idempotent_replay {s : Store} {now1 now2 : Nat} {k : String}
    {req1 : Request} (req2 : Request) {body : TransactionResponse} {s1 : Store}
    (hfresh : check_idempotency s now1 k = none)
    (h1 : handle s now1 k req1 = (.success 201 body, s1))
    (h2 : now2 < now1 + 24) :
    handle s1 now2 k req2 = (.success 201 body, s1) := by
  have key : ∃ path, (∀ l ∈ s.idem, l.idempotency_key ≠ k) ∧
      s1.idem = s.idem ++
        [{ idempotency_key := k, request_path := path, request_method := "POST",
           response_status := 201, response_body := body, expires_at := now1 + 24 }] := by
    cases req1 with
    | topup u c a d =>
      obtain ⟨hnok, hidem⟩ := topup_endpoint_success_inv hfresh h1
      exact ⟨_, hnok, hidem⟩
    | bonus u c a r =>
      obtain ⟨hnok, hidem⟩ := bonus_endpoint_success_inv hfresh h1
      exact ⟨_, hnok, hidem⟩
    | spend u c a d =>
      obtain ⟨hnok, hidem⟩ := spend_endpoint_success_inv hfresh h1
      exact ⟨_, hnok, hidem⟩
  obtain ⟨path, hnok, hs1idem⟩ := key
  have hchk : check_idempotency s1 now2 k = some (201, body) := by
    unfold check_idempotency
    rw [hs1idem, List.find?_append]
    have hleft : s.idem.find?
        (fun l => l.idempotency_key = k && now2 < l.expires_at) = none := by
      apply List.find?_eq_none.mpr
      intro l hl
      simp [hnok l hl]
    rw [hleft]
    simp [h2]
  cases req2 with
  | topup u c a d =>
    unfold handle topup_endpoint
    rw [hchk]
  | bonus u c a r =>
    unfold handle bonus_endpoint
    rw [hchk]
  | spend u c a d =>
    unfold handle spend_endpoint
    rw [hchk]

/-- **C5** — whenever a mutating endpoint answers with a structured client
error (`ASSET_NOT_FOUND` 404, `WALLET_NOT_FOUND` 404, `INSUFFICIENT_FUNDS`
400), the committed store is unchanged: no balance, transaction, ledger entry
or idempotency record survives the request, so a retry with the same key can
still succeed. -/
theorem client_error_leaves_store_unchanged {s : Store} {now : Nat} {k : String}
    {req : Request} {st : Nat} {e : WalletError} {s' : Store}
    (h : handle s now k req = (.clientError st e, s')) : s' = s := by
  cases req with
  | topup u c a d =>
    replace h : topup_endpoint s now k u c a d = (Response.clientError st e, s') := h
    unfold topup_endpoint at h
    cases hchk : check_idempotency s now k with
    | some cached =>
      rw [hchk] at h
      exact (congrArg Prod.snd h).symm
    | none =>
      rw [hchk] at h
      cases hb : topup_wallet s u c a k d with
      | error e2 =>
        rw [hb] at h
        exact (congrArg Prod.snd h).symm
      | ok p =>
        cases p with
        | mk tx s2 =>
          rw [hb] at h
          have hm : (match save_idempotency_log s2 now k "/api/v1/wallets/topup" "POST" 201
              (mkTransactionResponse tx) with
            | Except.error _ => (Response.serverError, sessionRollback s)
            | Except.ok s3 => (Response.success 201 (mkTransactionResponse tx), s3)) =
              (Response.clientError st e, s') := h
          cases hsv : save_idempotency_log s2 now k "/api/v1/wallets/topup" "POST" 201
              (mkTransactionResponse tx) with
          | error e2 =>
            rw [hsv] at hm
            simp at hm
          | ok s3 =>
            rw [hsv] at hm
            simp at hm
  | bonus u c a r =>
    replace h : bonus_endpoint s now k u c a r = (Response.clientError st e, s') := h
    unfold bonus_endpoint at h
    cases hchk : check_idempotency s now k with
    | some cached =>
      rw [hchk] at h
      exact (congrArg Prod.snd h).symm
    | none =>
      rw [hchk] at h
      cases hb : issue_bonus s u c a k r with
      | error e2 =>
        rw [hb] at h
        exact (congrArg Prod.snd h).symm
      | ok p =>
        cases p with
        | mk tx s2 =>
          rw [hb] at h
          have hm : (match save_idempotency_log s2 now k "/api/v1/wallets/bonus" "POST" 201
              (mkTransactionResponse tx) with
            | Except.error _ => (Response.serverError, sessionRollback s)
            | Except.ok s3 => (Response.success 201 (mkTransactionResponse tx), s3)) =
              (Response.clientError st e, s') := h
          cases hsv : save_idempotency_log s2 now k "/api/v1/wallets/bonus" "POST" 201
              (mkTransactionResponse tx) with
          | error e2 =>
            rw [hsv] at hm
            simp at hm
          | ok s3 =>
            rw [hsv] at hm
            simp at hm
  | spend u c a d =>
    replace h : spend_endpoint s now k u c a d = (Response.clientError st e, s') := h
    unfold spend_endpoint at h
    cases hchk : check_idempotency s now k with
    | some cached =>
      rw [hchk] at h
      exact (congrArg Prod.snd h).symm
    | none =>
      rw [hchk] at h
      cases hb : spend_credits s u c a k d with
      | error e2 =>
        rw [hb] at h
        exact (congrArg Prod.snd h).symm
      | ok p =>
        cases p with
        | mk tx s2 =>
          rw [hb] at h
          have hm : (match save_idempotency_log s2 now k "/api/v1/wallets/spend" "POST" 201
              (mkTransactionResponse tx) with
            | Except.error _ => (Response.serverError, sessionRollback s)
            | Except.ok s3 => (Response.success 201 (mkTransactionResponse tx), s3)) =
              (Response.clientError st e, s') := h
          cases hsv : save_idempotency_log s2 now k "/api/v1/wallets/spend" "POST" 201
              (mkTransactionResponse tx) with
          | error e2 =>
            rw [hsv] at hm
            simp at hm
          | ok s3 =>
            rw [hsv] at hm
            simp at hm

/-- The response body the idempotency-race winner stored for key `"k"`. -/
def winnerBody : TransactionResponse :=
  { transaction_id := 1, transaction_type := .TOPUP, status := .COMPLETED,
    from_wallet_id := 1, to_wallet_id := 2, amount := 500,
    description := some "Wallet top-up for alice" }

/-- The seeded store holding an idempotency row for key `"k"` (here expired at
hour 5, as after a lost race the winner's row is present when the loser's
flush runs). -/
def raceStore : Store :=
  { seedStore with idem :=
      [{ idempotency_key := "k", request_path := "/api/v1/wallets/topup",
         request_method := "POST", response_status := 201,
         response_body := winnerBody, expires_at := 5 }] }

/-- **C7** — when the unique constraint on `idempotency_key` fires while
`_save_idempotency_log` flushes (an idempotency race lost, modelled by a row
with key `"k"` already present), the topup endpoint does NOT re-read and
return the winner's cached body: the generic `except Exception` handler rolls
back and surfaces a 500 `serverError`, which differs from the cached-body
response the spec requires. -/
theorem idempotency_race_surfaces_500 :
    handle raceStore 10 "k" (.topup "alice" "GOLD_COIN" 500 none) =
      (.serverError, raceStore) ∧
    (Response.serverError ≠ .success 201 winnerBody) := by
  constructor
  · rfl
  · intro hcontra
    cases hcontra

/-! ## Witnesses -/

/-- The operation sequence used by the C1 witness. -/
def c1ops : List Op :=
  [.topup "alice" "GOLD_COIN" 100 "k1" none,
   .spend "alice" "GOLD_COIN" 50 "k2" none,
   .bonus "bob" "GOLD_COIN" 25 "k3" "referral"]

theorem ledger_balance_invariant_witness :
    (∀ o ∈ c1ops, 0 < o.amount) ∧ WF seedStore ∧ BalancesMatchLedger seedStore ∧
    NonSystemNonNeg seedStore ∧
    (BalancesMatchLedger (applyOps seedStore c1ops) ∧
     NonSystemNonNeg (applyOps seedStore c1ops)) := by
  have hp : ∀ o ∈ c1ops, 0 < o.amount := by decide
  have hw : WF seedStore := by
    unfold WF
    decide
  have hb : BalancesMatchLedger seedStore := by
    unfold BalancesMatchLedger
    decide
  have hn : NonSystemNonNeg seedStore := by
    unfold NonSystemNonNeg
    decide
  exact ⟨hp, hw, hb, hn, ledger_balance_invariant hp hw hb hn⟩

theorem transfer_double_entry_witness :
    ((1 : Nat) ≠ 2) ∧
    (execute_transaction seedStore 1 2 1 500 .TOPUP "k9" none =
      .ok (txOf seedStore 1 2 1 500 .TOPUP "k9" none,
           storeAfter seedStore 1 2 1 500 .TOPUP "k9" none)) ∧
    ((storeAfter seedStore 1 2 1 500 .TOPUP "k9" none).entries = seedStore.entries ++
      [{ transaction_id := (txOf seedStore 1 2 1 500 .TOPUP "k9" none).id,
         wallet_id := 1, entry_type := .DEBIT, amount := -500,
         balance_after := balanceOf seedStore.wallets 1 - 500 },
       { transaction_id := (txOf seedStore 1 2 1 500 .TOPUP "k9" none).id,
         wallet_id := 2, entry_type := .CREDIT, amount := 500,
         balance_after := balanceOf seedStore.wallets 2 + 500 }] ∧
     balanceOf (storeAfter seedStore 1 2 1 500 .TOPUP "k9" none).wallets 1 =
       balanceOf seedStore.wallets 1 - 500 ∧
     balanceOf (storeAfter seedStore 1 2 1 500 .TOPUP "k9" none).wallets 2 =
       balanceOf seedStore.wallets 2 + 500) := by
  have hne : (1 : Nat) ≠ 2 := by decide
  have h : execute_transaction seedStore 1 2 1 500 .TOPUP "k9" none =
      .ok (txOf seedStore 1 2 1 500 .TOPUP "k9" none,
           storeAfter seedStore 1 2 1 500 .TOPUP "k9" none) := rfl
  exact ⟨hne, h, transfer_double_entry hne h⟩

theorem insufficient_funds_check_witness :
    findWalletById seedStore.wallets 2 = some aliceW ∧
    findWalletById seedStore.wallets 1 = some treasuryW ∧
    ((2 : Nat) ≠ 1) ∧
    ((execute_transaction seedStore 2 1 1 99990 .SPEND "k" none =
        .error (.insufficientFunds aliceW.balance 99990) ↔
      aliceW.is_system = false ∧ aliceW.balance < 99990) ∧
     (∀ e, execute_transaction seedStore 2 1 1 99990 .SPEND "k" none = .error e →
       e = .insufficientFunds aliceW.balance 99990) ∧
     (aliceW.is_system = true →
       ∃ tx s', execute_transaction seedStore 2 1 1 99990 .SPEND "k" none = .ok (tx, s') ∧
         balanceOf s'.wallets 2 = aliceW.balance - 99990)) := by
  have hf : findWalletById seedStore.wallets 2 = some aliceW := rfl
  have ht : findWalletById seedStore.wallets 1 = some treasuryW := rfl
  have hne : (2 : Nat) ≠ 1 := by decide
  exact ⟨hf, ht, hne, insufficient_funds_check 1 99990 .SPEND "k" none hf ht hne⟩

theorem versions_unchanged_witness :
    (execute_transaction seedStore 1 2 1 500 .TOPUP "k8" none =
      .ok (txOf seedStore 1 2 1 500 .TOPUP "k8" none,
           storeAfter seedStore 1 2 1 500 .TOPUP "k8" none)) ∧
    ((storeAfter seedStore 1 2 1 500 .TOPUP "k8" none).wallets.map Wallet.version =
       seedStore.wallets.map Wallet.version ∧
     (storeAfter seedStore 1 2 1 500 .TOPUP "k8" none).wallets.map Wallet.id =
       seedStore.wallets.map Wallet.id) := by
  have h : execute_transaction seedStore 1 2 1 500 .TOPUP "k8" none =
      .ok (txOf seedStore 1 2 1 500 .TOPUP "k8" none,
           storeAfter seedStore 1 2 1 500 .TOPUP "k8" none) := rfl
  exact ⟨h, transfer_leaves_versions_unchanged h⟩

theorem acquire_existing_wallet_witness :
    seedStore.wallets.find? (fun w => w.user_id = "alice" && w.asset_type_id = 1) =
      some aliceW ∧
    get_or_create_wallet seedStore "alice" 1 true = (aliceW, seedStore) := by
  have h : seedStore.wallets.find?
      (fun w => w.user_id = "alice" && w.asset_type_id = 1) = some aliceW := rfl
  exact ⟨h, acquire_existing_wallet_unchanged h true⟩

theorem balance_query_witness :
    get_asset_type_by_code seedStore "GOLD_COIN" = .ok goldAsset ∧
    ∃ w s', get_wallet_balance seedStore "dave" "GOLD_COIN" = .ok ((w, goldAsset), s') ∧
      w.user_id = "dave" ∧ w.asset_type_id = goldAsset.id ∧
      (seedStore.wallets.find?
          (fun w => w.user_id = "dave" && w.asset_type_id = goldAsset.id) = none →
        w.balance = 0 ∧ w ∈ s'.wallets) ∧
      (∀ w0, seedStore.wallets.find?
          (fun w => w.user_id = "dave" && w.asset_type_id = goldAsset.id) = some w0 →
        w = w0 ∧ s' = seedStore) := by
  have ha : get_asset_type_by_code seedStore "GOLD_COIN" = .ok goldAsset := rfl
  exact ⟨ha, balance_query_never_wallet_error "dave" ha⟩

theorem wallet_materialization_witness :
    spend_credits seedStore "carol" "GOLD_COIN" 700 "k6" none = .error .walletNotFound ∧
    (∃ tx s', topup_wallet seedStore "carol" "GOLD_COIN" 700 "k6" none = .ok (tx, s') ∧
      (∃ w ∈ s'.wallets, w.user_id = "carol" ∧ w.asset_type_id = goldAsset.id ∧
        w.is_system = false ∧ w.balance = 700) ∧
      ∃ wt ∈ s'.wallets, wt.user_id = "SYSTEM_TREASURY_" ++ "GOLD_COIN" ∧
        wt.asset_type_id = goldAsset.id ∧ wt.is_system = true) := by
  have hw : WF seedStore := by
    unfold WF
    decide
  have ha : get_asset_type_by_code seedStore "GOLD_COIN" = .ok goldAsset := rfl
  have hmain := wallet_materialization_policy seedStore "carol" "GOLD_COIN" "k6" 700
    goldAsset none "promo" hw ha
  have hsys : ∀ w ∈ seedStore.wallets,
      w.user_id = "SYSTEM_TREASURY_" ++ "GOLD_COIN" →
      w.asset_type_id = goldAsset.id → w.is_system = true := by
    decide
  exact ⟨hmain.2.2.1 rfl, hmain.1 rfl (by decide) hsys⟩

/-- The store after the C4 witness's first request. -/
def c4Store1 : Store :=
  (handle seedStore 0 "k1" (.topup "alice" "GOLD_COIN" 500 none)).2

/-- The response body of the C4 witness's first request. -/
def c4Body : TransactionResponse :=
  { transaction_id := 2, transaction_type := .TOPUP, status := .COMPLETED,
    from_wallet_id := 1, to_wallet_id := 2, amount := 500,
    description := some "Wallet top-up for alice" }

theorem idempotent_replay_witness :
    check_idempotency seedStore 0 "k1" = none ∧
    handle seedStore 0 "k1" (.topup "alice" "GOLD_COIN" 500 none) =
      (.success 201 c4Body, c4Store1) ∧
    ((3 : Nat) < 0 + 24) ∧
    handle c4Store1 3 "k1" (.spend "someone" "OTHER_ASSET" 1 none) =
      (.success 201 c4Body, c4Store1) := by
  have h0 : check_idempotency seedStore 0 "k1" = none := rfl
  have h1 : handle seedStore 0 "k1" (.topup "alice" "GOLD_COIN" 500 none) =
      (.success 201 c4Body, c4Store1) := rfl
  exact ⟨h0, h1, by decide,
    idempotent_replay (.spend "someone" "OTHER_ASSET" 1 none) h0 h1 (by decide)⟩

/-- The result of the C5 witness's failing spend. -/
def c5res : Response × Store :=
  handle seedStore 0 "k5" (.spend "alice" "GOLD_COIN" 99990 none)

theorem client_error_witness :
    handle seedStore 0 "k5" (.spend "alice" "GOLD_COIN" 99990 none) =
      (.clientError 400 (.insufficientFunds 10000 99990), c5res.2) ∧
    c5res.2 = seedStore := by
  have h : handle seedStore 0 "k5" (.spend "alice" "GOLD_COIN" 99990 none) =
      (.clientError 400 (.insufficientFunds 10000 99990), c5res.2) := rfl
  exact ⟨h, client_error_leaves_store_unchanged h⟩

end WalletSvc
